import Mathlib

/-!
Verification of the gtsam wrap-module definition file (`gtsam.h`) against the
wrap-generator specification.  The repository holds the IDL document itself;
the wrap-generator pipeline (lexer, parser, resolver, validator, emitter) is
described by the specification and modelled here from its words.  The document
is embedded both as raw text lines and as the parsed symbol model.
-/

/-- Modelled from the spec: the data-model base of a `TypeRef` — a tagged
variant over primitives, the Eigen-like matrix/vector types and a
fully-qualified class reference (namespace path plus class name).  The
wrap-generator source is not in the repository. -/
inductive BaseType
  | prim (name : String)
  | matrix
  | vector
  | classRef (path : List String) (name : String)
deriving DecidableEq

/-- Modelled from the spec: a parsed type expression — optional `const`, a base
type, optional shared-pointer marker, optional reference marker (grammar of
spec §4.2).  The wrap-generator source is not in the repository. -/
structure TypeExpr where
  isConst : Bool
  base : BaseType
  isPtr : Bool
  isRef : Bool
deriving DecidableEq

/-- Modelled from the spec: a method node — name, return type, ordered
parameter types, const-ness flag and static flag.  The wrap-generator source
is not in the repository. -/
structure Method where
  name : String
  ret : TypeExpr
  args : List TypeExpr
  isConst : Bool
  isStatic : Bool
deriving DecidableEq

/-- Modelled from the spec: a constructor node — an ordered sequence of
parameter types (constructors are name-less).  The wrap-generator source is
not in the repository. -/
structure Constructor where
  args : List TypeExpr
deriving DecidableEq

/-- Modelled from the spec: a class declaration — name, ordered constructors,
ordered methods (static-ness on each `Method`), optional include-path
override.  The wrap-generator source is not in the repository. -/
structure ClassDecl where
  name : String
  ctors : List Constructor
  methods : List Method
  includeOverride : Option String
deriving DecidableEq

/-- Modelled from the spec: a namespace block — name, ordered class
declarations, optional include-path override and the raw namespace-closing
marker line.  The wrap-generator source is not in the repository. -/
structure NamespaceDecl where
  name : String
  classes : List ClassDecl
  includeOverride : Option String
  closeMarker : String
deriving DecidableEq

/-- Modelled from the spec: a whole IDL document — top-level namespaces plus
bare forward declarations.  The wrap-generator source is not in the
repository. -/
structure Document where
  namespaces : List NamespaceDecl
  forwardDecls : List String
deriving DecidableEq

/-! ## Lexer (modelled from spec §4.1)

The source format is line-oriented ("Only one Method/Constructor per line"),
so the lexer is modelled over the document's lines.  Block comments may span
lines; the state carried across lines is whether a block comment is open. -/

/-- Modelled from the spec: scanning state inside one line — ordinary code,
just after a `/`, inside a block comment, inside a block comment just after a
`*`. -/
inductive LSt
  | norm
  | slash
  | blk
  | blkStar
deriving DecidableEq

/-- Prepends a kept character to a partial line result. -/
def keep (c : Char) (p : List Char × Bool) : List Char × Bool := (c :: p.1, p.2)

/-- Modelled from the spec: comment stripping inside one line.  Returns the
kept characters (each comment span replaced by nothing, a block comment's
closing by a single blank) and whether a block comment is still open at end
of line.  The wrap-generator source is not in the repository. -/
def lineGo : LSt → List Char → List Char × Bool
  | .norm, [] => ([], false)
  | .norm, c :: r => if c = '/' then lineGo .slash r else keep c (lineGo .norm r)
  | .slash, [] => (['/'], false)
  | .slash, c :: r =>
      if c = '/' then ([], false)
      else if c = '*' then lineGo .blk r
      else keep '/' (keep c (lineGo .norm r))
  | .blk, [] => ([], true)
  | .blk, c :: r => if c = '*' then lineGo .blkStar r else lineGo .blk r
  | .blkStar, [] => ([], true)
  | .blkStar, c :: r =>
      if c = '/' then keep ' ' (lineGo .norm r)
      else if c = '*' then lineGo .blkStar r
      else lineGo .blk r

/-- Checks that the first list is an initial segment of the second. -/
def leadsWith : List Char → List Char → Bool
  | [], _ => true
  | _ :: _, [] => false
  | p :: ps, c :: cs => p = c && leadsWith ps cs

/-- The characters of the mandatory namespace-closing marker
`}///\namespace` (document header, line 30). -/
def markerChars : List Char :=
  ['\x7d', '/', '/', '/', '\\', 'n', 'a', 'm', 'e', 's', 'p', 'a', 'c', 'e']

/-- Modelled from the spec: a line carrying the special namespace-closing
marker, which the lexer passes through rather than discarding as a comment. -/
def isMarkerLine (l : List Char) : Bool := leadsWith markerChars l

/-- Modelled from the spec: comment stripping over the document's lines.  The
Boolean state says whether a block comment is open when the line starts;
`none` means a block comment was left unterminated at end of input.  The
wrap-generator source is not in the repository. -/
def stripLines : Bool → List (List Char) → Option (List (List Char))
  | true, [] => none
  | false, [] => some []
  | b, l :: ls =>
      if b then
        (stripLines (lineGo .blk l).2 ls).map ((lineGo .blk l).1 :: ·)
      else if isMarkerLine l then
        (stripLines false ls).map (l :: ·)
      else
        (stripLines (lineGo .norm l).2 ls).map ((lineGo .norm l).1 :: ·)

/-- Identifier characters of the token grammar. -/
def isIdentChar (c : Char) : Bool := c.isAlphanum || c = '_'

/-- Modelled from the spec: tokenizing one comment-free line into identifier
runs and single punctuation characters, skipping whitespace.  `acc` is the
reversed identifier run in progress.  The wrap-generator source is not in the
repository. -/
def tokLine (acc : List Char) : List Char → List (List Char)
  | [] => if acc.isEmpty then [] else [acc.reverse]
  | c :: r =>
      if isIdentChar c then tokLine (c :: acc) r
      else
        (if acc.isEmpty then [] else [acc.reverse]) ++
          (if c.isWhitespace then tokLine [] r else [c] :: tokLine [] r)

/-- Token sequence of one comment-free line. -/
def tokensOfLine (l : List Char) : List (List Char) := tokLine [] l

/-- Token sequence of a comment-free document (tokens never span lines). -/
def tokensOf (ls : List (List Char)) : List (List Char) := ls.flatMap tokensOfLine

/-- Modelled from the spec: the lexer's only failure mode — a block comment
left unterminated at end of input. -/
inductive LexError
  | unterminatedBlockComment
deriving DecidableEq

deriving instance DecidableEq for Except

/-- Modelled from the spec: the lexer — strip comments, then tokenize; fails
with `LexError` exactly when stripping fails.  The wrap-generator source is
not in the repository. -/
def lexTokens (ls : List (List Char)) : Except LexError (List (List Char)) :=
  match stripLines false ls with
  | none => .error .unterminatedBlockComment
  | some ts => .ok (tokensOf ts)

/-- Whether a block comment is still open after scanning the given lines from
the given state (an independent characterisation of the lexer's failure
condition). -/
def endState : Bool → List (List Char) → Bool
  | b, [] => b
  | b, l :: ls =>
      if b then endState (lineGo .blk l).2 ls
      else if isMarkerLine l then endState false ls
      else endState (lineGo .norm l).2 ls

example : stripLines false [['a', '/', '/', 'x'], ['b']] = some [['a'], ['b']] := by decide
example : stripLines false [['a', '/', '*', 'x'], ['y', '*', '/', 'b']] =
    some [['a'], [' ', 'b']] := by decide
example : stripLines false [['/', '*', 'x']] = none := by decide
example : tokensOf [['a', 'b', ' ', ';'], ['c']] = [['a', 'b'], [';'], ['c']] := by decide
example : isMarkerLine ('\x7d' :: '/' :: '/' :: '/' :: '\\' :: 'n' :: 'a' :: 'm' ::
    'e' :: 's' :: 'p' :: 'a' :: 'c' :: 'e' :: ' ' :: 'g' :: []) = true := by decide

/-! ## Grammar parser fragments (modelled from spec §4.2) -/

/-- Modelled from the spec: the hard error raised by the grammar parser; the
namespace-close marker token is mandatory, so its absence is a `SyntaxError`.
The wrap-generator source is not in the repository. -/
inductive SyntaxError
  | missingCloseMarker (expectedNamespace : String)
deriving DecidableEq

/-- Reads the namespace name written after the close marker, if any: skip
blanks, then take the identifier run. -/
def markerName (l : List Char) : Option String :=
  let rest := (l.drop markerChars.length).dropWhile (· = ' ')
  let nm := rest.takeWhile isIdentChar
  if nm.isEmpty then none else some (String.mk nm)

/-- Modelled from the spec: checking one namespace-closing line.  The marker
token itself is mandatory (its absence is a hard `SyntaxError`); a name that
mismatches or omits the opening namespace's name yields only an advisory
style warning.  The wrap-generator source is not in the repository. -/
def checkClose (openName : String) (l : List Char) : Except SyntaxError (List String) :=
  if isMarkerLine l then
    if markerName l = some openName then .ok []
    else .ok ["style: close marker of namespace " ++ openName ++ " does not name it"]
  else .error (.missingCloseMarker openName)

/-- Modelled from the spec: a top-level item of the document as the parser
sees it — an include-override line, or a namespace block with its classes and
its closing-marker line.  The wrap-generator source is not in the
repository. -/
inductive TopItem
  | includeLine (path : String)
  | nsBlock (name : String) (classes : List ClassDecl) (closeMarker : String)

/-- Modelled from the spec: attaching include-override lines.  An override
line becomes pending and is attached to the declaration immediately following
it; attaching clears the pending override, so it is never applied to a
sibling.  The wrap-generator source is not in the repository. -/
def attachIncludes : Option String → List TopItem → List NamespaceDecl
  | _, [] => []
  | _, .includeLine p :: rest => attachIncludes (some p) rest
  | pending, .nsBlock n cs mk :: rest =>
      ⟨n, cs, pending, mk⟩ :: attachIncludes none rest

/-! ## Symbol table and dependency resolver (modelled from spec §4.3) -/

/-- All classes of a document keyed by fully-qualified namespace path plus
class name (the registry, fully populated before any resolution). -/
def Document.declaredQualified (d : Document) : List (List String × String) :=
  d.namespaces.flatMap fun ns => ns.classes.map fun c => ([ns.name], c.name)

/-- Modelled from the spec: resolving one class reference — lookup by the
stated qualified path in the class registry, then, only if the reference
carries no namespace qualification, in the forward-declaration set.  The
wrap-generator source is not in the repository. -/
def resolvable (d : Document) (path : List String) (cname : String) : Bool :=
  decide ((path, cname) ∈ d.declaredQualified) ||
    (decide (path = []) && decide (cname ∈ d.forwardDecls))

/-- A class-reference occurrence in a signature, with its location (namespace,
class, member). -/
structure RefOcc where
  ns : String
  cls : String
  member : String
  path : List String
  cname : String
deriving DecidableEq

/-- The class references occurring in one type expression. -/
def refsOfType (t : TypeExpr) : List (List String × String) :=
  match t.base with
  | .classRef p n => [(p, n)]
  | _ => []

/-- All class-reference occurrences in the signatures of one class, with
locations. -/
def classRefOccs (nsName : String) (c : ClassDecl) : List RefOcc :=
  ((c.ctors.flatMap fun k => k.args.flatMap refsOfType).map fun pr =>
      ⟨nsName, c.name, "constructor", pr.1, pr.2⟩) ++
    c.methods.flatMap fun m =>
      ((m.args.flatMap refsOfType) ++ refsOfType m.ret).map fun pr =>
        ⟨nsName, c.name, m.name, pr.1, pr.2⟩

/-- All class-reference occurrences of a document, in declaration order. -/
def allRefOccs (d : Document) : List RefOcc :=
  d.namespaces.flatMap fun ns => ns.classes.flatMap fun c => classRefOccs ns.name c

/-- Modelled from the spec: the resolution walk — visiting every constructor
and method signature and reporting one `DependencyError` (the unresolved
occurrence, with its location) per reference that matches neither a declared
class nor a forward declaration.  The wrap-generator source is not in the
repository. -/
def resolveErrors (d : Document) : List RefOcc :=
  d.namespaces.flatMap fun ns =>
    ns.classes.flatMap fun c =>
      (classRefOccs ns.name c).filter fun o => !resolvable d o.path o.cname

/-! ## Semantic validator (modelled from spec §4.4) -/

/-- Whether a name starts with a lowercase letter. -/
def lowerInit (s : String) : Bool :=
  match s.data with
  | [] => false
  | c :: _ => c.isLower

/-- Whether a name starts with an uppercase letter. -/
def upperInit (s : String) : Bool :=
  match s.data with
  | [] => false
  | c :: _ => c.isUpper

/-- Whether a name starts with a letter. -/
def alphaInit (s : String) : Bool :=
  match s.data with
  | [] => false
  | c :: _ => c.isAlpha

/-- Modelled from the spec: the naming rules — namespace names lowercase-
initial, class names uppercase-initial, instance method names lowercase-
initial, static method names starting with any letter.  Produces one
violation per offending declaration.  The wrap-generator source is not in
the repository. -/
def namingViolations (d : Document) : List String :=
  ((d.namespaces.filter fun ns => !lowerInit ns.name).map fun ns =>
      "naming: namespace " ++ ns.name) ++
    d.namespaces.flatMap fun ns =>
      ns.classes.flatMap fun c =>
        (if !upperInit c.name then ["naming: class " ++ ns.name ++ "::" ++ c.name] else []) ++
          ((c.methods.filter fun m => !m.isStatic && !lowerInit m.name).map fun m =>
              "naming: method " ++ ns.name ++ "::" ++ c.name ++ "::" ++ m.name) ++
          (c.methods.filter fun m => m.isStatic && !alphaInit m.name).map fun m =>
            "naming: static method " ++ ns.name ++ "::" ++ c.name ++ "::" ++ m.name

/-- The names occurring more than once in a list, one entry per name. -/
def dupNames (l : List String) : List String :=
  l.dedup.filter fun n => 2 ≤ l.count n

/-- Modelled from the spec: the uniqueness rule — within one class no two
methods may share a name; one violation per duplicate name.  The
wrap-generator source is not in the repository. -/
def uniqueViolations (d : Document) : List String :=
  d.namespaces.flatMap fun ns =>
    ns.classes.flatMap fun c =>
      (dupNames (c.methods.map (·.name))).map fun n =>
        "uniqueness: method " ++ ns.name ++ "::" ++ c.name ++ "::" ++ n

/-! ## Code emitter and pipeline (modelled from spec §4.5, §8) -/

/-- Modelled from the spec: the default include path derived deterministically
from the namespace path plus class name, `<ns/Class.h>`.  The wrap-generator
source is not in the repository. -/
def defaultInclude (path : List String) (cls : String) : String :=
  "<" ++ String.intercalate "/" (path ++ [cls ++ ".h"]) ++ ">"

/-- Modelled from the spec: the include directive of a class — its own
override if present, else its namespace's override, else the derived
default.  The wrap-generator source is not in the repository. -/
def includeFor (ns : NamespaceDecl) (c : ClassDecl) : String :=
  match c.includeOverride with
  | some s => s
  | none =>
    match ns.includeOverride with
    | some s => s
    | none => defaultInclude [ns.name] c.name

/-- Modelled from the spec: one binding unit per class — include directive,
one constructor thunk per declared constructor and one method thunk per
declared method (preserving const-ness and static-ness through the `Method`
records).  The wrap-generator source is not in the repository. -/
structure BindingUnit where
  nsName : String
  className : String
  includeDirective : String
  ctorThunks : List Constructor
  methodThunks : List Method
deriving DecidableEq

/-- Modelled from the spec: the emission walk over a validated model.  The
wrap-generator source is not in the repository. -/
def emitDoc (d : Document) : List BindingUnit :=
  d.namespaces.flatMap fun ns =>
    ns.classes.map fun c =>
      ⟨ns.name, c.name, includeFor ns c, c.ctors, c.methods⟩

/-- A dependency error rendered as a diagnostic line. -/
def describeDep (o : RefOcc) : String :=
  "dependency: " ++ o.ns ++ "::" ++ o.cls ++ "::" ++ o.member

/-- Modelled from the spec: the accumulated diagnostics of the resolver and
validator stages.  The wrap-generator source is not in the repository. -/
def diagnostics (d : Document) : List String :=
  (resolveErrors d).map describeDep ++ namingViolations d ++ uniqueViolations d

/-- Modelled from the spec: the whole pipeline on an already-parsed document —
emission happens only for a document with empty diagnostics; otherwise
emission is skipped and the diagnostics are reported.  The wrap-generator
source is not in the repository. -/
def runPipeline (d : Document) : List BindingUnit × List String :=
  (if diagnostics d = [] then emitDoc d else [], diagnostics d)


/-! ## The document

`gtsamItems` is the top-level item sequence of `gtsam.h`, translated
declaration by declaration from the source file: the five namespace blocks
with their classes, constructors, methods and closing-marker lines, and the
four include-override lines preceding the SLAM namespaces.  Commented-out
declarations (the header, line 130, line 160, lines 536-688) contribute
nothing, matching the comment-stripping lexer. -/

/-- The top-level items of `gtsam.h`, in source order. -/
def gtsamItems : List TopItem := [
  .nsBlock "gtsam" [
 { name := "Point2",
   ctors := [⟨[]⟩, ⟨[⟨false, .prim "double", false, false⟩, ⟨false, .prim "double", false, false⟩]⟩],
   methods := [
     ⟨"Expmap", ⟨false, .classRef ["gtsam"] "Point2", false, false⟩, [⟨false, .vector, false, false⟩], false, true⟩,
     ⟨"Logmap", ⟨false, .vector, false, false⟩, [⟨true, .classRef ["gtsam"] "Point2", false, true⟩], false, true⟩,
     ⟨"print", ⟨false, .prim "void", false, false⟩, [⟨false, .prim "string", false, false⟩], true, false⟩,
     ⟨"x", ⟨false, .prim "double", false, false⟩, [], false, false⟩,
     ⟨"y", ⟨false, .prim "double", false, false⟩, [], false, false⟩,
     ⟨"localCoordinates", ⟨false, .vector, false, false⟩, [⟨true, .classRef ["gtsam"] "Point2", false, true⟩], false, false⟩,
     ⟨"compose", ⟨false, .classRef ["gtsam"] "Point2", false, false⟩, [⟨true, .classRef ["gtsam"] "Point2", false, true⟩], false, false⟩,
     ⟨"between", ⟨false, .classRef ["gtsam"] "Point2", false, false⟩, [⟨true, .classRef ["gtsam"] "Point2", false, true⟩], false, false⟩,
     ⟨"retract", ⟨false, .classRef ["gtsam"] "Point2", false, false⟩, [⟨false, .vector, false, false⟩], false, false⟩],
   includeOverride := none },
 { name := "Point3",
   ctors := [⟨[]⟩, ⟨[⟨false, .prim "double", false, false⟩, ⟨false, .prim "double", false, false⟩, ⟨false, .prim "double", false, false⟩]⟩, ⟨[⟨false, .vector, false, false⟩]⟩],
   methods := [
     ⟨"Expmap", ⟨false, .classRef ["gtsam"] "Point3", false, false⟩, [⟨false, .vector, false, false⟩], false, true⟩,
     ⟨"Logmap", ⟨false, .vector, false, false⟩, [⟨true, .classRef ["gtsam"] "Point3", false, true⟩], false, true⟩,
     ⟨"print", ⟨false, .prim "void", false, false⟩, [⟨false, .prim "string", false, false⟩], true, false⟩,
     ⟨"equals", ⟨false, .prim "bool", false, false⟩, [⟨true, .classRef ["gtsam"] "Point3", false, true⟩, ⟨false, .prim "double", false, false⟩], false, false⟩,
     ⟨"vector", ⟨false, .vector, false, false⟩, [], true, false⟩,
     ⟨"x", ⟨false, .prim "double", false, false⟩, [], false, false⟩,
     ⟨"y", ⟨false, .prim "double", false, false⟩, [], false, false⟩,
     ⟨"z", ⟨false, .prim "double", false, false⟩, [], false, false⟩,
     ⟨"localCoordinates", ⟨false, .vector, false, false⟩, [⟨true, .classRef ["gtsam"] "Point3", false, true⟩], false, false⟩,
     ⟨"retract", ⟨false, .classRef ["gtsam"] "Point3", false, false⟩, [⟨false, .vector, false, false⟩], false, false⟩,
     ⟨"compose", ⟨false, .classRef ["gtsam"] "Point3", false, false⟩, [⟨true, .classRef ["gtsam"] "Point3", false, true⟩], false, false⟩,
     ⟨"between", ⟨false, .classRef ["gtsam"] "Point3", false, false⟩, [⟨true, .classRef ["gtsam"] "Point3", false, true⟩], false, false⟩],
   includeOverride := none },
 { name := "Rot2",
   ctors := [⟨[]⟩, ⟨[⟨false, .prim "double", false, false⟩]⟩],
   methods := [
     ⟨"Expmap", ⟨false, .classRef ["gtsam"] "Rot2", false, false⟩, [⟨false, .vector, false, false⟩], false, true⟩,
     ⟨"Logmap", ⟨false, .vector, false, false⟩, [⟨true, .classRef ["gtsam"] "Rot2", false, true⟩], false, true⟩,
     ⟨"fromAngle", ⟨false, .classRef ["gtsam"] "Rot2", false, false⟩, [⟨false, .prim "double", false, false⟩], false, true⟩,
     ⟨"fromDegrees", ⟨false, .classRef ["gtsam"] "Rot2", false, false⟩, [⟨false, .prim "double", false, false⟩], false, true⟩,
     ⟨"fromCosSin", ⟨false, .classRef ["gtsam"] "Rot2", false, false⟩, [⟨false, .prim "double", false, false⟩, ⟨false, .prim "double", false, false⟩], false, true⟩,
     ⟨"relativeBearing", ⟨false, .classRef ["gtsam"] "Rot2", false, false⟩, [⟨true, .classRef ["gtsam"] "Point2", false, true⟩], false, true⟩,
     ⟨"atan2", ⟨false, .classRef ["gtsam"] "Rot2", false, false⟩, [⟨false, .prim "double", false, false⟩, ⟨false, .prim "double", false, false⟩], false, true⟩,
     ⟨"print", ⟨false, .prim "void", false, false⟩, [⟨false, .prim "string", false, false⟩], true, false⟩,
     ⟨"equals", ⟨false, .prim "bool", false, false⟩, [⟨true, .classRef ["gtsam"] "Rot2", false, true⟩, ⟨false, .prim "double", false, false⟩], true, false⟩,
     ⟨"theta", ⟨false, .prim "double", false, false⟩, [], true, false⟩,
     ⟨"degrees", ⟨false, .prim "double", false, false⟩, [], true, false⟩,
     ⟨"c", ⟨false, .prim "double", false, false⟩, [], true, false⟩,
     ⟨"s", ⟨false, .prim "double", false, false⟩, [], true, false⟩,
     ⟨"localCoordinates", ⟨false, .vector, false, false⟩, [⟨true, .classRef ["gtsam"] "Rot2", false, true⟩], false, false⟩,
     ⟨"retract", ⟨false, .classRef ["gtsam"] "Rot2", false, false⟩, [⟨false, .vector, false, false⟩], false, false⟩,
     ⟨"compose", ⟨false, .classRef ["gtsam"] "Rot2", false, false⟩, [⟨true, .classRef ["gtsam"] "Rot2", false, true⟩], false, false⟩,
     ⟨"between", ⟨false, .classRef ["gtsam"] "Rot2", false, false⟩, [⟨true, .classRef ["gtsam"] "Rot2", false, true⟩], false, false⟩],
   includeOverride := none },
 { name := "Rot3",
   ctors := [⟨[]⟩, ⟨[⟨false, .matrix, false, false⟩]⟩],
   methods := [
     ⟨"Rx", ⟨false, .classRef ["gtsam"] "Rot3", false, false⟩, [⟨false, .prim "double", false, false⟩], false, true⟩,
     ⟨"Ry", ⟨false, .classRef ["gtsam"] "Rot3", false, false⟩, [⟨false, .prim "double", false, false⟩], false, true⟩,
     ⟨"Rz", ⟨false, .classRef ["gtsam"] "Rot3", false, false⟩, [⟨false, .prim "double", false, false⟩], false, true⟩,
     ⟨"RzRyRx", ⟨false, .classRef ["gtsam"] "Rot3", false, false⟩, [⟨false, .vector, false, false⟩], false, true⟩,
     ⟨"yaw", ⟨false, .classRef ["gtsam"] "Rot3", false, false⟩, [⟨false, .prim "double", false, false⟩], false, true⟩,
     ⟨"pitch", ⟨false, .classRef ["gtsam"] "Rot3", false, false⟩, [⟨false, .prim "double", false, false⟩], false, true⟩,
     ⟨"roll", ⟨false, .classRef ["gtsam"] "Rot3", false, false⟩, [⟨false, .prim "double", false, false⟩], false, true⟩,
     ⟨"ypr", ⟨false, .classRef ["gtsam"] "Rot3", false, false⟩, [⟨false, .prim "double", false, false⟩, ⟨false, .prim "double", false, false⟩, ⟨false, .prim "double", false, false⟩], false, true⟩,
     ⟨"quaternion", ⟨false, .classRef ["gtsam"] "Rot3", false, false⟩, [⟨false, .prim "double", false, false⟩, ⟨false, .prim "double", false, false⟩, ⟨false, .prim "double", false, false⟩, ⟨false, .prim "double", false, false⟩], false, true⟩,
     ⟨"rodriguez", ⟨false, .classRef ["gtsam"] "Rot3", false, false⟩, [⟨false, .vector, false, false⟩], false, true⟩,
     ⟨"print", ⟨false, .prim "void", false, false⟩, [⟨false, .prim "string", false, false⟩], true, false⟩,
     ⟨"equals", ⟨false, .prim "bool", false, false⟩, [⟨true, .classRef ["gtsam"] "Rot3", false, true⟩, ⟨false, .prim "double", false, false⟩], true, false⟩,
     ⟨"identity", ⟨false, .classRef ["gtsam"] "Rot3", false, false⟩, [], false, true⟩,
     ⟨"compose", ⟨false, .classRef ["gtsam"] "Rot3", false, false⟩, [⟨true, .classRef ["gtsam"] "Rot3", false, true⟩], true, false⟩,
     ⟨"inverse", ⟨false, .classRef ["gtsam"] "Rot3", false, false⟩, [], true, false⟩,
     ⟨"between", ⟨false, .classRef ["gtsam"] "Rot3", false, false⟩, [⟨true, .classRef ["gtsam"] "Rot3", false, true⟩], true, false⟩,
     ⟨"rotate", ⟨false, .classRef ["gtsam"] "Point3", false, false⟩, [⟨true, .classRef ["gtsam"] "Point3", false, true⟩], true, false⟩,
     ⟨"unrotate", ⟨false, .classRef ["gtsam"] "Point3", false, false⟩, [⟨true, .classRef ["gtsam"] "Point3", false, true⟩], true, false⟩,
     ⟨"retractCayley", ⟨false, .classRef ["gtsam"] "Rot3", false, false⟩, [⟨false, .vector, false, false⟩], true, false⟩,
     ⟨"retract", ⟨false, .classRef ["gtsam"] "Rot3", false, false⟩, [⟨false, .vector, false, false⟩], true, false⟩,
     ⟨"localCoordinates", ⟨false, .vector, false, false⟩, [⟨true, .classRef ["gtsam"] "Rot3", false, true⟩], true, false⟩,
     ⟨"Expmap", ⟨false, .classRef ["gtsam"] "Rot3", false, false⟩, [⟨false, .vector, false, false⟩], false, true⟩,
     ⟨"Logmap", ⟨false, .vector, false, false⟩, [⟨true, .classRef ["gtsam"] "Rot3", false, true⟩], false, true⟩,
     ⟨"matrix", ⟨false, .matrix, false, false⟩, [], true, false⟩,
     ⟨"transpose", ⟨false, .matrix, false, false⟩, [], true, false⟩,
     ⟨"column", ⟨false, .classRef ["gtsam"] "Point3", false, false⟩, [⟨false, .prim "int", false, false⟩], true, false⟩,
     ⟨"xyz", ⟨false, .vector, false, false⟩, [], true, false⟩,
     ⟨"ypr", ⟨false, .vector, false, false⟩, [], true, false⟩,
     ⟨"rpy", ⟨false, .vector, false, false⟩, [], true, false⟩,
     ⟨"roll", ⟨false, .prim "double", false, false⟩, [], true, false⟩,
     ⟨"pitch", ⟨false, .prim "double", false, false⟩, [], true, false⟩,
     ⟨"yaw", ⟨false, .prim "double", false, false⟩, [], true, false⟩],
   includeOverride := none },
 { name := "Pose2",
   ctors := [⟨[]⟩, ⟨[⟨false, .prim "double", false, false⟩, ⟨false, .prim "double", false, false⟩, ⟨false, .prim "double", false, false⟩]⟩, ⟨[⟨false, .prim "double", false, false⟩, ⟨true, .classRef ["gtsam"] "Point2", false, true⟩]⟩, ⟨[⟨true, .classRef ["gtsam"] "Rot2", false, true⟩, ⟨true, .classRef ["gtsam"] "Point2", false, true⟩]⟩, ⟨[⟨false, .vector, false, false⟩]⟩],
   methods := [
     ⟨"Expmap", ⟨false, .classRef ["gtsam"] "Pose2", false, false⟩, [⟨false, .vector, false, false⟩], false, true⟩,
     ⟨"Logmap", ⟨false, .vector, false, false⟩, [⟨true, .classRef ["gtsam"] "Pose2", false, true⟩], false, true⟩,
     ⟨"print", ⟨false, .prim "void", false, false⟩, [⟨false, .prim "string", false, false⟩], true, false⟩,
     ⟨"equals", ⟨false, .prim "bool", false, false⟩, [⟨true, .classRef ["gtsam"] "Pose2", false, true⟩, ⟨false, .prim "double", false, false⟩], true, false⟩,
     ⟨"x", ⟨false, .prim "double", false, false⟩, [], true, false⟩,
     ⟨"y", ⟨false, .prim "double", false, false⟩, [], true, false⟩,
     ⟨"theta", ⟨false, .prim "double", false, false⟩, [], true, false⟩,
     ⟨"dim", ⟨false, .prim "int", false, false⟩, [], true, false⟩,
     ⟨"localCoordinates", ⟨false, .vector, false, false⟩, [⟨true, .classRef ["gtsam"] "Pose2", false, true⟩], false, false⟩,
     ⟨"retract", ⟨false, .classRef ["gtsam"] "Pose2", false, false⟩, [⟨false, .vector, false, false⟩], false, false⟩,
     ⟨"compose", ⟨false, .classRef ["gtsam"] "Pose2", false, false⟩, [⟨true, .classRef ["gtsam"] "Pose2", false, true⟩], false, false⟩,
     ⟨"between", ⟨false, .classRef ["gtsam"] "Pose2", false, false⟩, [⟨true, .classRef ["gtsam"] "Pose2", false, true⟩], false, false⟩,
     ⟨"bearing", ⟨false, .classRef ["gtsam"] "Rot2", false, false⟩, [⟨true, .classRef ["gtsam"] "Point2", false, true⟩], false, false⟩,
     ⟨"range", ⟨false, .prim "double", false, false⟩, [⟨true, .classRef ["gtsam"] "Point2", false, true⟩], false, false⟩,
     ⟨"translation", ⟨false, .classRef ["gtsam"] "Point2", false, false⟩, [], true, false⟩,
     ⟨"rotation", ⟨false, .classRef ["gtsam"] "Rot2", false, false⟩, [], true, false⟩],
   includeOverride := none },
 { name := "Pose3",
   ctors := [⟨[]⟩, ⟨[⟨true, .classRef ["gtsam"] "Rot3", false, true⟩, ⟨true, .classRef ["gtsam"] "Point3", false, true⟩]⟩, ⟨[⟨false, .vector, false, false⟩]⟩, ⟨[⟨false, .matrix, false, false⟩]⟩, ⟨[⟨true, .classRef ["gtsam"] "Pose2", false, true⟩]⟩],
   methods := [
     ⟨"Expmap", ⟨false, .classRef ["gtsam"] "Pose3", false, false⟩, [⟨false, .vector, false, false⟩], false, true⟩,
     ⟨"Logmap", ⟨false, .vector, false, false⟩, [⟨true, .classRef ["gtsam"] "Pose3", false, true⟩], false, true⟩,
     ⟨"print", ⟨false, .prim "void", false, false⟩, [⟨false, .prim "string", false, false⟩], true, false⟩,
     ⟨"equals", ⟨false, .prim "bool", false, false⟩, [⟨true, .classRef ["gtsam"] "Pose3", false, true⟩, ⟨false, .prim "double", false, false⟩], true, false⟩,
     ⟨"x", ⟨false, .prim "double", false, false⟩, [], true, false⟩,
     ⟨"y", ⟨false, .prim "double", false, false⟩, [], true, false⟩,
     ⟨"z", ⟨false, .prim "double", false, false⟩, [], true, false⟩,
     ⟨"matrix", ⟨false, .matrix, false, false⟩, [], true, false⟩,
     ⟨"adjointMap", ⟨false, .matrix, false, false⟩, [], true, false⟩,
     ⟨"compose", ⟨false, .classRef ["gtsam"] "Pose3", false, false⟩, [⟨true, .classRef ["gtsam"] "Pose3", false, true⟩], false, false⟩,
     ⟨"between", ⟨false, .classRef ["gtsam"] "Pose3", false, false⟩, [⟨true, .classRef ["gtsam"] "Pose3", false, true⟩], false, false⟩,
     ⟨"retract", ⟨false, .classRef ["gtsam"] "Pose3", false, false⟩, [⟨false, .vector, false, false⟩], false, false⟩,
     ⟨"retractFirstOrder", ⟨false, .classRef ["gtsam"] "Pose3", false, false⟩, [⟨false, .vector, false, false⟩], false, false⟩,
     ⟨"translation", ⟨false, .classRef ["gtsam"] "Point3", false, false⟩, [], true, false⟩,
     ⟨"rotation", ⟨false, .classRef ["gtsam"] "Rot3", false, false⟩, [], true, false⟩],
   includeOverride := none },
 { name := "SharedGaussian",
   ctors := [⟨[⟨false, .matrix, false, false⟩]⟩],
   methods := [
     ⟨"print", ⟨false, .prim "void", false, false⟩, [⟨false, .prim "string", false, false⟩], true, false⟩],
   includeOverride := none },
 { name := "SharedDiagonal",
   ctors := [⟨[⟨false, .vector, false, false⟩]⟩],
   methods := [
     ⟨"print", ⟨false, .prim "void", false, false⟩, [⟨false, .prim "string", false, false⟩], true, false⟩,
     ⟨"sample", ⟨false, .vector, false, false⟩, [], true, false⟩],
   includeOverride := none },
 { name := "SharedNoiseModel",
   ctors := [],
   methods := [
     ⟨"sharedSigmas", ⟨false, .classRef ["gtsam"] "SharedNoiseModel", false, false⟩, [⟨false, .vector, false, false⟩], false, true⟩,
     ⟨"sharedSigma", ⟨false, .classRef ["gtsam"] "SharedNoiseModel", false, false⟩, [⟨false, .prim "size_t", false, false⟩, ⟨false, .prim "double", false, false⟩], false, true⟩,
     ⟨"sharedPrecisions", ⟨false, .classRef ["gtsam"] "SharedNoiseModel", false, false⟩, [⟨false, .vector, false, false⟩], false, true⟩,
     ⟨"sharedPrecision", ⟨false, .classRef ["gtsam"] "SharedNoiseModel", false, false⟩, [⟨false, .prim "size_t", false, false⟩, ⟨false, .prim "double", false, false⟩], false, true⟩,
     ⟨"sharedUnit", ⟨false, .classRef ["gtsam"] "SharedNoiseModel", false, false⟩, [⟨false, .prim "size_t", false, false⟩], false, true⟩,
     ⟨"sharedSqrtInformation", ⟨false, .classRef ["gtsam"] "SharedNoiseModel", false, false⟩, [⟨false, .matrix, false, false⟩], false, true⟩,
     ⟨"sharedCovariance", ⟨false, .classRef ["gtsam"] "SharedNoiseModel", false, false⟩, [⟨false, .matrix, false, false⟩], false, true⟩,
     ⟨"print", ⟨false, .prim "void", false, false⟩, [⟨false, .prim "string", false, false⟩], true, false⟩],
   includeOverride := none },
 { name := "VectorValues",
   ctors := [⟨[]⟩, ⟨[⟨false, .prim "int", false, false⟩, ⟨false, .prim "int", false, false⟩]⟩],
   methods := [
     ⟨"print", ⟨false, .prim "void", false, false⟩, [⟨false, .prim "string", false, false⟩], true, false⟩,
     ⟨"equals", ⟨false, .prim "bool", false, false⟩, [⟨true, .classRef ["gtsam"] "VectorValues", false, true⟩, ⟨false, .prim "double", false, false⟩], true, false⟩,
     ⟨"size", ⟨false, .prim "int", false, false⟩, [], true, false⟩,
     ⟨"insert", ⟨false, .prim "void", false, false⟩, [⟨false, .prim "int", false, false⟩, ⟨false, .vector, false, false⟩], false, false⟩],
   includeOverride := none },
 { name := "GaussianConditional",
   ctors := [⟨[⟨false, .prim "int", false, false⟩, ⟨false, .vector, false, false⟩, ⟨false, .matrix, false, false⟩, ⟨false, .vector, false, false⟩]⟩, ⟨[⟨false, .prim "int", false, false⟩, ⟨false, .vector, false, false⟩, ⟨false, .matrix, false, false⟩, ⟨false, .prim "int", false, false⟩, ⟨false, .matrix, false, false⟩, ⟨false, .vector, false, false⟩]⟩, ⟨[⟨false, .prim "int", false, false⟩, ⟨false, .vector, false, false⟩, ⟨false, .matrix, false, false⟩, ⟨false, .prim "int", false, false⟩, ⟨false, .matrix, false, false⟩, ⟨false, .prim "int", false, false⟩, ⟨false, .matrix, false, false⟩, ⟨false, .vector, false, false⟩]⟩],
   methods := [
     ⟨"print", ⟨false, .prim "void", false, false⟩, [⟨false, .prim "string", false, false⟩], true, false⟩,
     ⟨"equals", ⟨false, .prim "bool", false, false⟩, [⟨true, .classRef ["gtsam"] "GaussianConditional", false, true⟩, ⟨false, .prim "double", false, false⟩], true, false⟩],
   includeOverride := none },
 { name := "GaussianDensity",
   ctors := [⟨[⟨false, .prim "int", false, false⟩, ⟨false, .vector, false, false⟩, ⟨false, .matrix, false, false⟩, ⟨false, .vector, false, false⟩]⟩],
   methods := [
     ⟨"print", ⟨false, .prim "void", false, false⟩, [⟨false, .prim "string", false, false⟩], true, false⟩,
     ⟨"mean", ⟨false, .vector, false, false⟩, [], true, false⟩,
     ⟨"information", ⟨false, .matrix, false, false⟩, [], true, false⟩,
     ⟨"covariance", ⟨false, .matrix, false, false⟩, [], true, false⟩],
   includeOverride := none },
 { name := "GaussianBayesNet",
   ctors := [⟨[]⟩],
   methods := [
     ⟨"print", ⟨false, .prim "void", false, false⟩, [⟨false, .prim "string", false, false⟩], true, false⟩,
     ⟨"equals", ⟨false, .prim "bool", false, false⟩, [⟨true, .classRef ["gtsam"] "GaussianBayesNet", false, true⟩, ⟨false, .prim "double", false, false⟩], true, false⟩,
     ⟨"push_back", ⟨false, .prim "void", false, false⟩, [⟨false, .classRef ["gtsam"] "GaussianConditional", true, false⟩], false, false⟩,
     ⟨"push_front", ⟨false, .prim "void", false, false⟩, [⟨false, .classRef ["gtsam"] "GaussianConditional", true, false⟩], false, false⟩],
   includeOverride := none },
 { name := "GaussianFactor",
   ctors := [],
   methods := [
     ⟨"print", ⟨false, .prim "void", false, false⟩, [⟨false, .prim "string", false, false⟩], true, false⟩,
     ⟨"equals", ⟨false, .prim "bool", false, false⟩, [⟨true, .classRef ["gtsam"] "GaussianFactor", false, true⟩, ⟨false, .prim "double", false, false⟩], true, false⟩,
     ⟨"error", ⟨false, .prim "double", false, false⟩, [⟨true, .classRef ["gtsam"] "VectorValues", false, true⟩], true, false⟩],
   includeOverride := none },
 { name := "JacobianFactor",
   ctors := [⟨[]⟩, ⟨[⟨false, .vector, false, false⟩]⟩, ⟨[⟨false, .prim "int", false, false⟩, ⟨false, .matrix, false, false⟩, ⟨false, .vector, false, false⟩, ⟨true, .classRef ["gtsam"] "SharedDiagonal", false, true⟩]⟩, ⟨[⟨false, .prim "int", false, false⟩, ⟨false, .matrix, false, false⟩, ⟨false, .prim "int", false, false⟩, ⟨false, .matrix, false, false⟩, ⟨false, .vector, false, false⟩, ⟨true, .classRef ["gtsam"] "SharedDiagonal", false, true⟩]⟩, ⟨[⟨false, .prim "int", false, false⟩, ⟨false, .matrix, false, false⟩, ⟨false, .prim "int", false, false⟩, ⟨false, .matrix, false, false⟩, ⟨false, .prim "int", false, false⟩, ⟨false, .matrix, false, false⟩, ⟨false, .vector, false, false⟩, ⟨true, .classRef ["gtsam"] "SharedDiagonal", false, true⟩]⟩],
   methods := [
     ⟨"print", ⟨false, .prim "void", false, false⟩, [⟨false, .prim "string", false, false⟩], true, false⟩,
     ⟨"equals", ⟨false, .prim "bool", false, false⟩, [⟨true, .classRef ["gtsam"] "GaussianFactor", false, true⟩, ⟨false, .prim "double", false, false⟩], true, false⟩,
     ⟨"empty", ⟨false, .prim "bool", false, false⟩, [], true, false⟩,
     ⟨"getb", ⟨false, .vector, false, false⟩, [], true, false⟩,
     ⟨"error", ⟨false, .prim "double", false, false⟩, [⟨true, .classRef ["gtsam"] "VectorValues", false, true⟩], true, false⟩,
     ⟨"eliminateFirst", ⟨false, .classRef ["gtsam"] "GaussianConditional", true, false⟩, [], false, false⟩],
   includeOverride := none },
 { name := "HessianFactor",
   ctors := [⟨[⟨true, .classRef ["gtsam"] "HessianFactor", false, true⟩]⟩, ⟨[]⟩, ⟨[⟨false, .prim "int", false, false⟩, ⟨false, .matrix, false, false⟩, ⟨false, .vector, false, false⟩, ⟨false, .prim "double", false, false⟩]⟩, ⟨[⟨false, .prim "int", false, false⟩, ⟨false, .vector, false, false⟩, ⟨false, .matrix, false, false⟩]⟩, ⟨[⟨false, .prim "int", false, false⟩, ⟨false, .prim "int", false, false⟩, ⟨false, .matrix, false, false⟩, ⟨false, .matrix, false, false⟩, ⟨false, .vector, false, false⟩, ⟨false, .matrix, false, false⟩, ⟨false, .vector, false, false⟩, ⟨false, .prim "double", false, false⟩]⟩, ⟨[⟨false, .prim "int", false, false⟩, ⟨false, .prim "int", false, false⟩, ⟨false, .prim "int", false, false⟩, ⟨false, .matrix, false, false⟩, ⟨false, .matrix, false, false⟩, ⟨false, .matrix, false, false⟩, ⟨false, .vector, false, false⟩, ⟨false, .matrix, false, false⟩, ⟨false, .matrix, false, false⟩, ⟨false, .vector, false, false⟩, ⟨false, .matrix, false, false⟩, ⟨false, .vector, false, false⟩, ⟨false, .prim "double", false, false⟩]⟩, ⟨[⟨true, .classRef ["gtsam"] "GaussianConditional", false, true⟩]⟩, ⟨[⟨true, .classRef ["gtsam"] "GaussianFactor", false, true⟩]⟩],
   methods := [
     ⟨"print", ⟨false, .prim "void", false, false⟩, [⟨false, .prim "string", false, false⟩], true, false⟩,
     ⟨"equals", ⟨false, .prim "bool", false, false⟩, [⟨true, .classRef ["gtsam"] "GaussianFactor", false, true⟩, ⟨false, .prim "double", false, false⟩], true, false⟩,
     ⟨"error", ⟨false, .prim "double", false, false⟩, [⟨true, .classRef ["gtsam"] "VectorValues", false, true⟩], true, false⟩],
   includeOverride := none },
 { name := "GaussianFactorGraph",
   ctors := [⟨[]⟩, ⟨[⟨true, .classRef ["gtsam"] "GaussianBayesNet", false, true⟩]⟩],
   methods := [
     ⟨"push_back", ⟨false, .prim "void", false, false⟩, [⟨false, .classRef ["gtsam"] "GaussianFactor", true, false⟩], false, false⟩,
     ⟨"print", ⟨false, .prim "void", false, false⟩, [⟨false, .prim "string", false, false⟩], true, false⟩,
     ⟨"equals", ⟨false, .prim "bool", false, false⟩, [⟨true, .classRef ["gtsam"] "GaussianFactorGraph", false, true⟩, ⟨false, .prim "double", false, false⟩], true, false⟩,
     ⟨"size", ⟨false, .prim "int", false, false⟩, [], true, false⟩,
     ⟨"add", ⟨false, .prim "void", false, false⟩, [⟨false, .classRef ["gtsam"] "JacobianFactor", true, false⟩], false, false⟩,
     ⟨"add", ⟨false, .prim "void", false, false⟩, [⟨false, .vector, false, false⟩], false, false⟩,
     ⟨"add", ⟨false, .prim "void", false, false⟩, [⟨false, .prim "int", false, false⟩, ⟨false, .matrix, false, false⟩, ⟨false, .vector, false, false⟩, ⟨true, .classRef ["gtsam"] "SharedDiagonal", false, true⟩], false, false⟩,
     ⟨"add", ⟨false, .prim "void", false, false⟩, [⟨false, .prim "int", false, false⟩, ⟨false, .matrix, false, false⟩, ⟨false, .prim "int", false, false⟩, ⟨false, .matrix, false, false⟩, ⟨false, .vector, false, false⟩, ⟨true, .classRef ["gtsam"] "SharedDiagonal", false, true⟩], false, false⟩,
     ⟨"add", ⟨false, .prim "void", false, false⟩, [⟨false, .prim "int", false, false⟩, ⟨false, .matrix, false, false⟩, ⟨false, .prim "int", false, false⟩, ⟨false, .matrix, false, false⟩, ⟨false, .prim "int", false, false⟩, ⟨false, .matrix, false, false⟩, ⟨false, .vector, false, false⟩, ⟨true, .classRef ["gtsam"] "SharedDiagonal", false, true⟩], false, false⟩,
     ⟨"add", ⟨false, .prim "void", false, false⟩, [⟨false, .classRef ["gtsam"] "HessianFactor", true, false⟩], false, false⟩,
     ⟨"error", ⟨false, .prim "double", false, false⟩, [⟨true, .classRef ["gtsam"] "VectorValues", false, true⟩], true, false⟩,
     ⟨"probPrime", ⟨false, .prim "double", false, false⟩, [⟨true, .classRef ["gtsam"] "VectorValues", false, true⟩], true, false⟩,
     ⟨"combine2", ⟨false, .classRef ["gtsam"] "GaussianFactorGraph", false, false⟩, [⟨true, .classRef ["gtsam"] "GaussianFactorGraph", false, true⟩, ⟨true, .classRef ["gtsam"] "GaussianFactorGraph", false, true⟩], false, true⟩,
     ⟨"combine", ⟨false, .prim "void", false, false⟩, [⟨true, .classRef ["gtsam"] "GaussianFactorGraph", false, true⟩], false, false⟩,
     ⟨"sparseJacobian_", ⟨false, .matrix, false, false⟩, [], true, false⟩,
     ⟨"denseJacobian", ⟨false, .matrix, false, false⟩, [], true, false⟩,
     ⟨"denseHessian", ⟨false, .matrix, false, false⟩, [], true, false⟩],
   includeOverride := none },
 { name := "GaussianSequentialSolver",
   ctors := [⟨[⟨true, .classRef ["gtsam"] "GaussianFactorGraph", false, true⟩, ⟨false, .prim "bool", false, false⟩]⟩],
   methods := [
     ⟨"eliminate", ⟨false, .classRef ["gtsam"] "GaussianBayesNet", true, false⟩, [], true, false⟩,
     ⟨"optimize", ⟨false, .classRef ["gtsam"] "VectorValues", true, false⟩, [], true, false⟩,
     ⟨"marginalFactor", ⟨false, .classRef ["gtsam"] "GaussianFactor", true, false⟩, [⟨false, .prim "int", false, false⟩], true, false⟩,
     ⟨"marginalCovariance", ⟨false, .matrix, false, false⟩, [⟨false, .prim "int", false, false⟩], true, false⟩],
   includeOverride := none },
 { name := "KalmanFilter",
   ctors := [⟨[⟨false, .prim "size_t", false, false⟩]⟩],
   methods := [
     ⟨"init", ⟨false, .classRef ["gtsam"] "GaussianDensity", true, false⟩, [⟨false, .vector, false, false⟩, ⟨true, .classRef ["gtsam"] "SharedDiagonal", false, true⟩], false, false⟩,
     ⟨"init", ⟨false, .classRef ["gtsam"] "GaussianDensity", true, false⟩, [⟨false, .vector, false, false⟩, ⟨false, .matrix, false, false⟩], false, false⟩,
     ⟨"print", ⟨false, .prim "void", false, false⟩, [⟨false, .prim "string", false, false⟩], true, false⟩,
     ⟨"step", ⟨false, .prim "int", false, false⟩, [⟨false, .classRef ["gtsam"] "GaussianDensity", true, false⟩], false, true⟩,
     ⟨"predict", ⟨false, .classRef ["gtsam"] "GaussianDensity", true, false⟩, [⟨false, .classRef ["gtsam"] "GaussianDensity", true, false⟩, ⟨false, .matrix, false, false⟩, ⟨false, .matrix, false, false⟩, ⟨false, .vector, false, false⟩, ⟨true, .classRef ["gtsam"] "SharedDiagonal", false, true⟩], false, false⟩,
     ⟨"predictQ", ⟨false, .classRef ["gtsam"] "GaussianDensity", true, false⟩, [⟨false, .classRef ["gtsam"] "GaussianDensity", true, false⟩, ⟨false, .matrix, false, false⟩, ⟨false, .matrix, false, false⟩, ⟨false, .vector, false, false⟩, ⟨false, .matrix, false, false⟩], false, false⟩,
     ⟨"predict2", ⟨false, .classRef ["gtsam"] "GaussianDensity", true, false⟩, [⟨false, .classRef ["gtsam"] "GaussianDensity", true, false⟩, ⟨false, .matrix, false, false⟩, ⟨false, .matrix, false, false⟩, ⟨false, .vector, false, false⟩, ⟨true, .classRef ["gtsam"] "SharedDiagonal", false, true⟩], false, false⟩,
     ⟨"update", ⟨false, .classRef ["gtsam"] "GaussianDensity", true, false⟩, [⟨false, .classRef ["gtsam"] "GaussianDensity", true, false⟩, ⟨false, .matrix, false, false⟩, ⟨false, .vector, false, false⟩, ⟨true, .classRef ["gtsam"] "SharedDiagonal", false, true⟩], false, false⟩,
     ⟨"updateQ", ⟨false, .classRef ["gtsam"] "GaussianDensity", true, false⟩, [⟨false, .classRef ["gtsam"] "GaussianDensity", true, false⟩, ⟨false, .matrix, false, false⟩, ⟨false, .vector, false, false⟩, ⟨false, .matrix, false, false⟩], false, false⟩],
   includeOverride := none },
 { name := "Ordering",
   ctors := [⟨[]⟩],
   methods := [
     ⟨"print", ⟨false, .prim "void", false, false⟩, [⟨false, .prim "string", false, false⟩], true, false⟩,
     ⟨"equals", ⟨false, .prim "bool", false, false⟩, [⟨true, .classRef ["gtsam"] "Ordering", false, true⟩, ⟨false, .prim "double", false, false⟩], true, false⟩,
     ⟨"push_back", ⟨false, .prim "void", false, false⟩, [⟨false, .prim "string", false, false⟩], false, false⟩],
   includeOverride := none },
 { name := "NonlinearOptimizationParameters",
   ctors := [⟨[⟨false, .prim "double", false, false⟩, ⟨false, .prim "double", false, false⟩, ⟨false, .prim "double", false, false⟩, ⟨false, .prim "int", false, false⟩, ⟨false, .prim "double", false, false⟩, ⟨false, .prim "double", false, false⟩]⟩],
   methods := [
     ⟨"print", ⟨false, .prim "void", false, false⟩, [⟨false, .prim "string", false, false⟩], true, false⟩,
     ⟨"newDrecreaseThresholds", ⟨false, .classRef ["gtsam"] "NonlinearOptimizationParameters", true, false⟩, [⟨false, .prim "double", false, false⟩, ⟨false, .prim "double", false, false⟩], false, true⟩],
   includeOverride := none }]
  "\x7d///\\namespace gtsam",
  .includeLine "<gtsam/slam/planarSLAM.h>",
  .nsBlock "planarSLAM" [
 { name := "Values",
   ctors := [⟨[]⟩],
   methods := [
     ⟨"print", ⟨false, .prim "void", false, false⟩, [⟨false, .prim "string", false, false⟩], true, false⟩,
     ⟨"pose", ⟨false, .classRef ["gtsam"] "Pose2", false, false⟩, [⟨false, .prim "int", false, false⟩], true, false⟩,
     ⟨"point", ⟨false, .classRef ["gtsam"] "Point2", false, false⟩, [⟨false, .prim "int", false, false⟩], true, false⟩,
     ⟨"insertPose", ⟨false, .prim "void", false, false⟩, [⟨false, .prim "int", false, false⟩, ⟨true, .classRef ["gtsam"] "Pose2", false, true⟩], false, false⟩,
     ⟨"insertPoint", ⟨false, .prim "void", false, false⟩, [⟨false, .prim "int", false, false⟩, ⟨true, .classRef ["gtsam"] "Point2", false, true⟩], false, false⟩],
   includeOverride := none },
 { name := "Graph",
   ctors := [⟨[]⟩],
   methods := [
     ⟨"print", ⟨false, .prim "void", false, false⟩, [⟨false, .prim "string", false, false⟩], true, false⟩,
     ⟨"error", ⟨false, .prim "double", false, false⟩, [⟨true, .classRef ["planarSLAM"] "Values", false, true⟩], true, false⟩,
     ⟨"orderingCOLAMD", ⟨false, .classRef ["gtsam"] "Ordering", true, false⟩, [⟨true, .classRef ["planarSLAM"] "Values", false, true⟩], true, false⟩,
     ⟨"linearize", ⟨false, .classRef ["gtsam"] "GaussianFactorGraph", true, false⟩, [⟨true, .classRef ["planarSLAM"] "Values", false, true⟩, ⟨true, .classRef ["gtsam"] "Ordering", false, true⟩], true, false⟩,
     ⟨"addPrior", ⟨false, .prim "void", false, false⟩, [⟨false, .prim "int", false, false⟩, ⟨true, .classRef ["gtsam"] "Pose2", false, true⟩, ⟨true, .classRef ["gtsam"] "SharedNoiseModel", false, true⟩], false, false⟩,
     ⟨"addPoseConstraint", ⟨false, .prim "void", false, false⟩, [⟨false, .prim "int", false, false⟩, ⟨true, .classRef ["gtsam"] "Pose2", false, true⟩], false, false⟩,
     ⟨"addOdometry", ⟨false, .prim "void", false, false⟩, [⟨false, .prim "int", false, false⟩, ⟨false, .prim "int", false, false⟩, ⟨true, .classRef ["gtsam"] "Pose2", false, true⟩, ⟨true, .classRef ["gtsam"] "SharedNoiseModel", false, true⟩], false, false⟩,
     ⟨"addBearing", ⟨false, .prim "void", false, false⟩, [⟨false, .prim "int", false, false⟩, ⟨false, .prim "int", false, false⟩, ⟨true, .classRef ["gtsam"] "Rot2", false, true⟩, ⟨true, .classRef ["gtsam"] "SharedNoiseModel", false, true⟩], false, false⟩,
     ⟨"addRange", ⟨false, .prim "void", false, false⟩, [⟨false, .prim "int", false, false⟩, ⟨false, .prim "int", false, false⟩, ⟨false, .prim "double", false, false⟩, ⟨true, .classRef ["gtsam"] "SharedNoiseModel", false, true⟩], false, false⟩,
     ⟨"addBearingRange", ⟨false, .prim "void", false, false⟩, [⟨false, .prim "int", false, false⟩, ⟨false, .prim "int", false, false⟩, ⟨true, .classRef ["gtsam"] "Rot2", false, true⟩, ⟨false, .prim "double", false, false⟩, ⟨true, .classRef ["gtsam"] "SharedNoiseModel", false, true⟩], false, false⟩,
     ⟨"optimize", ⟨false, .classRef ["planarSLAM"] "Values", false, false⟩, [⟨true, .classRef ["planarSLAM"] "Values", false, true⟩], false, false⟩],
   includeOverride := none },
 { name := "Odometry",
   ctors := [⟨[⟨false, .prim "int", false, false⟩, ⟨false, .prim "int", false, false⟩, ⟨true, .classRef ["gtsam"] "Pose2", false, true⟩, ⟨true, .classRef ["gtsam"] "SharedNoiseModel", false, true⟩]⟩],
   methods := [
     ⟨"print", ⟨false, .prim "void", false, false⟩, [⟨false, .prim "string", false, false⟩], true, false⟩,
     ⟨"linearize", ⟨false, .classRef ["gtsam"] "GaussianFactor", true, false⟩, [⟨true, .classRef ["planarSLAM"] "Values", false, true⟩, ⟨true, .classRef ["gtsam"] "Ordering", false, true⟩], true, false⟩],
   includeOverride := none },
 { name := "Optimizer",
   ctors := [⟨[⟨false, .classRef ["planarSLAM"] "Graph", true, false⟩, ⟨false, .classRef ["planarSLAM"] "Values", true, false⟩, ⟨false, .classRef ["gtsam"] "Ordering", true, false⟩, ⟨false, .classRef ["gtsam"] "NonlinearOptimizationParameters", true, false⟩]⟩],
   methods := [
     ⟨"print", ⟨false, .prim "void", false, false⟩, [⟨false, .prim "string", false, false⟩], true, false⟩],
   includeOverride := none }]
  "\x7d///\\namespace planarSLAM",
  .includeLine "<gtsam/slam/pose2SLAM.h>",
  .nsBlock "pose2SLAM" [
 { name := "Values",
   ctors := [⟨[]⟩],
   methods := [
     ⟨"print", ⟨false, .prim "void", false, false⟩, [⟨false, .prim "string", false, false⟩], true, false⟩,
     ⟨"insertPose", ⟨false, .prim "void", false, false⟩, [⟨false, .prim "int", false, false⟩, ⟨true, .classRef ["gtsam"] "Pose2", false, true⟩], false, false⟩,
     ⟨"pose", ⟨false, .classRef ["gtsam"] "Pose2", false, false⟩, [⟨false, .prim "int", false, false⟩], false, false⟩],
   includeOverride := none },
 { name := "Graph",
   ctors := [⟨[]⟩],
   methods := [
     ⟨"print", ⟨false, .prim "void", false, false⟩, [⟨false, .prim "string", false, false⟩], true, false⟩,
     ⟨"error", ⟨false, .prim "double", false, false⟩, [⟨true, .classRef ["pose2SLAM"] "Values", false, true⟩], true, false⟩,
     ⟨"orderingCOLAMD", ⟨false, .classRef ["gtsam"] "Ordering", true, false⟩, [⟨true, .classRef ["pose2SLAM"] "Values", false, true⟩], true, false⟩,
     ⟨"linearize", ⟨false, .classRef ["gtsam"] "GaussianFactorGraph", true, false⟩, [⟨true, .classRef ["pose2SLAM"] "Values", false, true⟩, ⟨true, .classRef ["gtsam"] "Ordering", false, true⟩], true, false⟩,
     ⟨"addPrior", ⟨false, .prim "void", false, false⟩, [⟨false, .prim "int", false, false⟩, ⟨true, .classRef ["gtsam"] "Pose2", false, true⟩, ⟨true, .classRef ["gtsam"] "SharedNoiseModel", false, true⟩], false, false⟩,
     ⟨"addPoseConstraint", ⟨false, .prim "void", false, false⟩, [⟨false, .prim "int", false, false⟩, ⟨true, .classRef ["gtsam"] "Pose2", false, true⟩], false, false⟩,
     ⟨"addOdometry", ⟨false, .prim "void", false, false⟩, [⟨false, .prim "int", false, false⟩, ⟨false, .prim "int", false, false⟩, ⟨true, .classRef ["gtsam"] "Pose2", false, true⟩, ⟨true, .classRef ["gtsam"] "SharedNoiseModel", false, true⟩], false, false⟩,
     ⟨"optimize", ⟨false, .classRef ["pose2SLAM"] "Values", false, false⟩, [⟨true, .classRef ["pose2SLAM"] "Values", false, true⟩], false, false⟩],
   includeOverride := none },
 { name := "Optimizer",
   ctors := [⟨[⟨false, .classRef ["pose2SLAM"] "Graph", true, false⟩, ⟨false, .classRef ["pose2SLAM"] "Values", true, false⟩, ⟨false, .classRef ["gtsam"] "Ordering", true, false⟩, ⟨false, .classRef ["gtsam"] "NonlinearOptimizationParameters", true, false⟩]⟩],
   methods := [
     ⟨"print", ⟨false, .prim "void", false, false⟩, [⟨false, .prim "string", false, false⟩], true, false⟩],
   includeOverride := none }]
  "\x7d///\\namespace pose2SLAM",
  .includeLine "<gtsam/slam/simulated2D.h>",
  .nsBlock "simulated2D" [
 { name := "Values",
   ctors := [⟨[]⟩],
   methods := [
     ⟨"insertPose", ⟨false, .prim "void", false, false⟩, [⟨false, .prim "int", false, false⟩, ⟨true, .classRef ["gtsam"] "Point2", false, true⟩], false, false⟩,
     ⟨"insertPoint", ⟨false, .prim "void", false, false⟩, [⟨false, .prim "int", false, false⟩, ⟨true, .classRef ["gtsam"] "Point2", false, true⟩], false, false⟩,
     ⟨"nrPoses", ⟨false, .prim "int", false, false⟩, [], true, false⟩,
     ⟨"nrPoints", ⟨false, .prim "int", false, false⟩, [], true, false⟩,
     ⟨"pose", ⟨false, .classRef ["gtsam"] "Point2", false, false⟩, [⟨false, .prim "int", false, false⟩], false, false⟩,
     ⟨"point", ⟨false, .classRef ["gtsam"] "Point2", false, false⟩, [⟨false, .prim "int", false, false⟩], false, false⟩],
   includeOverride := none },
 { name := "Graph",
   ctors := [⟨[]⟩],
   methods := [
  ],
   includeOverride := none }]
  "\x7d///\\namespace simulated2D",
  .includeLine "<gtsam/slam/simulated2DOriented.h>",
  .nsBlock "simulated2DOriented" [
 { name := "Values",
   ctors := [⟨[]⟩],
   methods := [
     ⟨"insertPose", ⟨false, .prim "void", false, false⟩, [⟨false, .prim "int", false, false⟩, ⟨true, .classRef ["gtsam"] "Pose2", false, true⟩], false, false⟩,
     ⟨"insertPoint", ⟨false, .prim "void", false, false⟩, [⟨false, .prim "int", false, false⟩, ⟨true, .classRef ["gtsam"] "Point2", false, true⟩], false, false⟩,
     ⟨"nrPoses", ⟨false, .prim "int", false, false⟩, [], true, false⟩,
     ⟨"nrPoints", ⟨false, .prim "int", false, false⟩, [], true, false⟩,
     ⟨"pose", ⟨false, .classRef ["gtsam"] "Pose2", false, false⟩, [⟨false, .prim "int", false, false⟩], false, false⟩,
     ⟨"point", ⟨false, .classRef ["gtsam"] "Point2", false, false⟩, [⟨false, .prim "int", false, false⟩], false, false⟩],
   includeOverride := none },
 { name := "Graph",
   ctors := [⟨[]⟩],
   methods := [
  ],
   includeOverride := none }]
  "\x7d///\\namespace simulated2DOriented"
  ]

/-- The document model of `gtsam.h`: include-override lines attached by the
parser rule, no forward declarations (the file declares none). -/
def gtsamDoc : Document := ⟨attachIncludes none gtsamItems, []⟩

/-- The raw text of `gtsam.h`, line by line. -/
def gtsamLines : List String := [
  "/**",
  " * GTSAM Wrap Module Definition",
  " *",
  " * These are the current classes available through the matlab toolbox interface,",
  " * add more functions/classes as they are available.",
  " *",
  " * Requirements:",
  " *   Classes must start with an uppercase letter",
  " *   Only one Method/Constructor per line",
  " *   Methods can return",
  " *     - Eigen types:       Matrix, Vector",
  " *     - C/C++ basic types: string, bool, size_t, int, double, char",
  " *     - void",
  " *     - Any class with which be copied with boost::make_shared()",
  " *     - boost::shared_ptr of any object type",
  " *   Limitations on methods",
  " *     - Parsing does not support overloading",
  " *     - There can only be one method with a given name",
  " *   Arguments to functions any of",
  " *   \t - Eigen types:       Matrix, Vector",
  " *   \t - Eigen types and classes as an optionally const reference",
  " *     - C/C++ basic types: string, bool, size_t, int, double",
  " *     - Any class with which be copied with boost::make_shared() (except Eigen)",
  " *     - boost::shared_ptr of any object type (except Eigen)",
  " *   Comments can use either C++ or C style, with multiple lines",
  " *   Namespace definitions",
  " *     - Names of namespaces must start with a lowercase letter",
  " *   \t - start a namespace with \"namespace \x7b\"",
  " *   \t - end a namespace with exactly \"\x7d///\\namespace [namespace_name]\", optionally adding the name of the namespace",
  " *   \t - This ending is not C++ standard, and must contain \"\x7d///\\namespace\" to parse",
  " *   \t - Namespaces can be nested",
  " *   Namespace usage",
  " *   \t - Namespaces can be specified for classes in arguments and return values",
  " *   \t - In each case, the namespace must be fully specified, e.g., \"namespace1::namespace2::ClassName\"",
  " *   Methods must start with a lowercase letter",
  " *   Static methods must start with a letter (upper or lowercase) and use the \"static\" keyword",
  " *   Includes in C++ wrappers",
  " *   \t - By default, the include will be <[classname].h>",
  " *   \t - All namespaces must have angle brackets: <path>",
  " *   \t - To override, add a full include statement just before the class statement",
  " *   \t - An override include can be added for a namespace by placing it just before the namespace statement",
  " *   \t - Both classes and namespace accept exactly one namespace",
  " *   Overriding type dependency checks",
  " *     - If you are using a class \x27OtherClass\x27 not wrapped in this definition file, add \"class OtherClass;\" to avoid a dependency error",
  " *     - Limitation: this only works if the class does not need a namespace specification",
  " */",
  "",
  "/**",
  " * Status:",
  " *  - TODO: global functions",
  " *  - TODO: default values for arguments",
  " *  - TODO: overloaded functions",
  " *  - TODO: signatures for constructors can be ambiguous if two types have the same first letter",
  " *  - TODO: Handle gtsam::Rot3M conversions to quaternions",
  " */",
  "",
  "// Everything is in the gtsam namespace, so we avoid copying everything in",
  "//using namespace gtsam;",
  "",
  "namespace gtsam \x7b",
  "",
  "//*************************************************************************",
  "// base",
  "//*************************************************************************",
  "",
  "//*************************************************************************",
  "// geometry",
  "//*************************************************************************",
  "",
  "class Point2 \x7b",
  "  Point2();",
  "  Point2(double x, double y);",
  "  static gtsam::Point2 Expmap(Vector v);",
  "\tstatic Vector Logmap(const gtsam::Point2& p);",
  "\tvoid print(string s) const;",
  "\tdouble x();",
  "\tdouble y();",
  "  Vector localCoordinates(const gtsam::Point2& p);",
  "\tgtsam::Point2 compose(const gtsam::Point2& p2);",
  "\tgtsam::Point2 between(const gtsam::Point2& p2);",
  "  gtsam::Point2 retract(Vector v);",
  "\x7d;",
  "",
  "class Point3 \x7b",
  "\tPoint3();",
  "\tPoint3(double x, double y, double z);",
  "\tPoint3(Vector v);",
  "\tstatic gtsam::Point3 Expmap(Vector v);",
  "\tstatic Vector Logmap(const gtsam::Point3& p);",
  "\tvoid print(string s) const;",
  "\tbool equals(const gtsam::Point3& p, double tol);",
  "\tVector vector() const;",
  "\tdouble x();",
  "\tdouble y();",
  "\tdouble z();",
  "\tVector localCoordinates(const gtsam::Point3& p);",
  "\tgtsam::Point3 retract(Vector v);",
  "\tgtsam::Point3 compose(const gtsam::Point3& p2);",
  "\tgtsam::Point3 between(const gtsam::Point3& p2);",
  "\x7d;",
  "",
  "class Rot2 \x7b",
  "\tRot2();",
  "\tRot2(double theta);",
  "\tstatic gtsam::Rot2 Expmap(Vector v);",
  "\tstatic Vector Logmap(const gtsam::Rot2& p);",
  "\tstatic gtsam::Rot2 fromAngle(double theta);",
  "\tstatic gtsam::Rot2 fromDegrees(double theta);",
  "\tstatic gtsam::Rot2 fromCosSin(double c, double s);",
  "\tstatic gtsam::Rot2 relativeBearing(const gtsam::Point2& d); // Ignoring derivative",
  "\tstatic gtsam::Rot2 atan2(double y, double x);",
  "\tvoid print(string s) const;",
  "\tbool equals(const gtsam::Rot2& rot, double tol) const;",
  "\tdouble theta() const;",
  "\tdouble degrees() const;",
  "\tdouble c() const;",
  "\tdouble s() const;",
  "\tVector localCoordinates(const gtsam::Rot2& p);",
  "\tgtsam::Rot2 retract(Vector v);",
  "\tgtsam::Rot2 compose(const gtsam::Rot2& p2);",
  "\tgtsam::Rot2 between(const gtsam::Rot2& p2);",
  "\x7d;",
  "",
  "class Rot3 \x7b",
  "\tRot3();",
  "\tRot3(Matrix R);",
  "  static gtsam::Rot3 Rx(double t);",
  "  static gtsam::Rot3 Ry(double t);",
  "  static gtsam::Rot3 Rz(double t);",
  "//  static gtsam::Rot3 RzRyRx(double x, double y, double z); // FIXME: overloaded functions don\x27t work yet",
  "  static gtsam::Rot3 RzRyRx(Vector xyz);",
  "  static gtsam::Rot3 yaw  (double t); // positive yaw is to right (as in aircraft heading)",
  "  static gtsam::Rot3 pitch(double t); // positive pitch is up (increasing aircraft altitude)",
  "  static gtsam::Rot3 roll (double t); // positive roll is to right (increasing yaw in aircraft)",
  "  static gtsam::Rot3 ypr(double y, double p, double r);",
  "  static gtsam::Rot3 quaternion(double w, double x, double y, double z);",
  "  static gtsam::Rot3 rodriguez(Vector v);",
  "\tvoid print(string s) const;",
  "\tbool equals(const gtsam::Rot3& rot, double tol) const;",
  "  static gtsam::Rot3 identity();",
  "  gtsam::Rot3 compose(const gtsam::Rot3& p2) const;",
  "  gtsam::Rot3 inverse() const;",
  "\tgtsam::Rot3 between(const gtsam::Rot3& p2) const;",
  "\tgtsam::Point3 rotate(const gtsam::Point3& p) const;",
  "\tgtsam::Point3 unrotate(const gtsam::Point3& p) const;",
  "\tgtsam::Rot3 retractCayley(Vector v) const;",
  "\tgtsam::Rot3 retract(Vector v) const;",
  "\tVector localCoordinates(const gtsam::Rot3& p) const;",
  "\tstatic gtsam::Rot3 Expmap(Vector v);",
  "\tstatic Vector Logmap(const gtsam::Rot3& p);",
  "\tMatrix matrix() const;",
  "\tMatrix transpose() const;",
  "\tgtsam::Point3 column(int index) const;",
  "\tVector xyz() const;",
  "\tVector ypr() const;",
  "\tVector rpy() const;",
  "  double roll() const;",
  "  double pitch() const;",
  "  double yaw() const;",
  "//  Vector toQuaternion() const;  // FIXME: Can\x27t cast to Vector properly",
  "\x7d;",
  "",
  "class Pose2 \x7b",
  "\tPose2();",
  "\tPose2(double x, double y, double theta);",
  "\tPose2(double theta, const gtsam::Point2& t);",
  "\tPose2(const gtsam::Rot2& r, const gtsam::Point2& t);",
  "\tPose2(Vector v);",
  "\tstatic gtsam::Pose2 Expmap(Vector v);",
  "\tstatic Vector Logmap(const gtsam::Pose2& p);",
  "\tvoid print(string s) const;",
  "\tbool equals(const gtsam::Pose2& pose, double tol) const;",
  "\tdouble x() const;",
  "\tdouble y() const;",
  "\tdouble theta() const;",
  "\tint dim() const;",
  "\tVector localCoordinates(const gtsam::Pose2& p);",
  "\tgtsam::Pose2 retract(Vector v);",
  "\tgtsam::Pose2 compose(const gtsam::Pose2& p2);",
  "\tgtsam::Pose2 between(const gtsam::Pose2& p2);",
  "\tgtsam::Rot2 bearing(const gtsam::Point2& point);",
  "\tdouble range(const gtsam::Point2& point);",
  "\tgtsam::Point2 translation() const;",
  "\tgtsam::Rot2 rotation() const;",
  "\x7d;",
  "",
  "class Pose3 \x7b",
  "\tPose3();",
  "\tPose3(const gtsam::Rot3& r, const gtsam::Point3& t);",
  "\tPose3(Vector v);",
  "\tPose3(Matrix t);",
  "\tPose3(const gtsam::Pose2& pose2);",
  "\tstatic gtsam::Pose3 Expmap(Vector v);",
  "\tstatic Vector Logmap(const gtsam::Pose3& p);",
  "\tvoid print(string s) const;",
  "\tbool equals(const gtsam::Pose3& pose, double tol) const;",
  "\tdouble x() const;",
  "\tdouble y() const;",
  "\tdouble z() const;",
  "\tMatrix matrix() const;",
  "\tMatrix adjointMap() const;",
  "\tgtsam::Pose3 compose(const gtsam::Pose3& p2);",
  "\tgtsam::Pose3 between(const gtsam::Pose3& p2);",
  "\tgtsam::Pose3 retract(Vector v);",
  "\tgtsam::Pose3 retractFirstOrder(Vector v);",
  "\tgtsam::Point3 translation() const;",
  "\tgtsam::Rot3 rotation() const;",
  "\x7d;",
  "",
  "//*************************************************************************",
  "// inference",
  "//*************************************************************************",
  "",
  "",
  "",
  "//*************************************************************************",
  "// linear",
  "//*************************************************************************",
  "",
  "class SharedGaussian \x7b",
  "\tSharedGaussian(Matrix covariance);",
  "\tvoid print(string s) const;",
  "\x7d;",
  "",
  "class SharedDiagonal \x7b",
  "\tSharedDiagonal(Vector sigmas);",
  "\tvoid print(string s) const;",
  "\tVector sample() const;",
  "\x7d;",
  "",
  "class SharedNoiseModel \x7b",
  "\tstatic gtsam::SharedNoiseModel sharedSigmas(Vector sigmas);",
  "\tstatic gtsam::SharedNoiseModel sharedSigma(size_t dim, double sigma);",
  "\tstatic gtsam::SharedNoiseModel sharedPrecisions(Vector precisions);",
  "\tstatic gtsam::SharedNoiseModel sharedPrecision(size_t dim, double precision);",
  "\tstatic gtsam::SharedNoiseModel sharedUnit(size_t dim);",
  "\tstatic gtsam::SharedNoiseModel sharedSqrtInformation(Matrix R);",
  "\tstatic gtsam::SharedNoiseModel sharedCovariance(Matrix covariance);",
  "\tvoid print(string s) const;",
  "\x7d;",
  "",
  "class VectorValues \x7b",
  "\tVectorValues();",
  "\tVectorValues(int nVars, int varDim);",
  "\tvoid print(string s) const;",
  "\tbool equals(const gtsam::VectorValues& expected, double tol) const;",
  "\tint size() const;",
  "\tvoid insert(int j, Vector value);",
  "\x7d;",
  "",
  "class GaussianConditional \x7b",
  "\tGaussianConditional(int key, Vector d, Matrix R, Vector sigmas);",
  "\tGaussianConditional(int key, Vector d, Matrix R, int name1, Matrix S,",
  "\t\t\tVector sigmas);",
  "\tGaussianConditional(int key, Vector d, Matrix R, int name1, Matrix S,",
  "\t\t\tint name2, Matrix T, Vector sigmas);",
  "\tvoid print(string s) const;",
  "\tbool equals(const gtsam::GaussianConditional &cg, double tol) const;",
  "\x7d;",
  "",
  "class GaussianDensity \x7b",
  "\tGaussianDensity(int key, Vector d, Matrix R, Vector sigmas);",
  "\tvoid print(string s) const;",
  "\tVector mean() const;",
  "\tMatrix information() const;",
  "\tMatrix covariance() const;",
  "\x7d;",
  "",
  "class GaussianBayesNet \x7b",
  "\tGaussianBayesNet();",
  "\tvoid print(string s) const;",
  "\tbool equals(const gtsam::GaussianBayesNet& cbn, double tol) const;",
  "\tvoid push_back(gtsam::GaussianConditional* conditional);",
  "\tvoid push_front(gtsam::GaussianConditional* conditional);",
  "\x7d;",
  "",
  "class GaussianFactor \x7b",
  "\tvoid print(string s) const;",
  "\tbool equals(const gtsam::GaussianFactor& lf, double tol) const;",
  "\tdouble error(const gtsam::VectorValues& c) const;",
  "\x7d;",
  "",
  "class JacobianFactor \x7b",
  "\tJacobianFactor();",
  "\tJacobianFactor(Vector b_in);",
  "\tJacobianFactor(int i1, Matrix A1, Vector b, const gtsam::SharedDiagonal& model);",
  "\tJacobianFactor(int i1, Matrix A1, int i2, Matrix A2, Vector b,",
  "\t\t\tconst gtsam::SharedDiagonal& model);",
  "\tJacobianFactor(int i1, Matrix A1, int i2, Matrix A2, int i3, Matrix A3,",
  "\t\t\tVector b, const gtsam::SharedDiagonal& model);",
  "\tvoid print(string s) const;",
  "\tbool equals(const gtsam::GaussianFactor& lf, double tol) const;",
  "\tbool empty() const;",
  "\tVector getb() const;",
  "\tdouble error(const gtsam::VectorValues& c) const;",
  "\tgtsam::GaussianConditional* eliminateFirst();",
  "\x7d;",
  "",
  "class HessianFactor \x7b",
  "\tHessianFactor(const gtsam::HessianFactor& gf);",
  "\tHessianFactor();",
  "\tHessianFactor(int j, Matrix G, Vector g, double f);",
  "\tHessianFactor(int j, Vector mu, Matrix Sigma);",
  "\tHessianFactor(int j1, int j2, Matrix G11, Matrix G12, Vector g1, Matrix G22,",
  "\t\t\tVector g2, double f);",
  "\tHessianFactor(int j1, int j2, int j3, Matrix G11, Matrix G12, Matrix G13,",
  "\t\t\tVector g1, Matrix G22, Matrix G23, Vector g2, Matrix G33, Vector g3,",
  "\t\t\tdouble f);",
  "\tHessianFactor(const gtsam::GaussianConditional& cg);",
  "\tHessianFactor(const gtsam::GaussianFactor& factor);",
  "  void print(string s) const;",
  "  bool equals(const gtsam::GaussianFactor& lf, double tol) const;",
  "  double error(const gtsam::VectorValues& c) const;",
  "\x7d;",
  "",
  "class GaussianFactorGraph \x7b",
  "\tGaussianFactorGraph();",
  "  GaussianFactorGraph(const gtsam::GaussianBayesNet& CBN);",
  "",
  "  // From FactorGraph",
  "\tvoid push_back(gtsam::GaussianFactor* factor);",
  "\tvoid print(string s) const;",
  "\tbool equals(const gtsam::GaussianFactorGraph& lfgraph, double tol) const;",
  "\tint size() const;",
  "",
  "\t// Building the graph",
  "\tvoid add(gtsam::JacobianFactor* factor);",
  "\tvoid add(Vector b);",
  "\tvoid add(int key1, Matrix A1, Vector b, const gtsam::SharedDiagonal& model);",
  "\tvoid add(int key1, Matrix A1, int key2, Matrix A2, Vector b,",
  "\t\t\tconst gtsam::SharedDiagonal& model);",
  "\tvoid add(int key1, Matrix A1, int key2, Matrix A2, int key3, Matrix A3,",
  "\t\t\tVector b, const gtsam::SharedDiagonal& model);",
  "\tvoid add(gtsam::HessianFactor* factor);",
  "",
  "\t// error and probability",
  "\tdouble error(const gtsam::VectorValues& c) const;",
  "\tdouble probPrime(const gtsam::VectorValues& c) const;",
  "",
  "\t// combining",
  "  static gtsam::GaussianFactorGraph combine2(const gtsam::GaussianFactorGraph& lfg1,",
  "      const gtsam::GaussianFactorGraph& lfg2);",
  "\tvoid combine(const gtsam::GaussianFactorGraph& lfg);",
  "",
  "\t// Conversion to matrices",
  "\tMatrix sparseJacobian_() const;",
  "\tMatrix denseJacobian() const;",
  "\tMatrix denseHessian() const;",
  "\x7d;",
  "",
  "class GaussianSequentialSolver \x7b",
  "  GaussianSequentialSolver(const gtsam::GaussianFactorGraph& graph, bool useQR);",
  "  gtsam::GaussianBayesNet* eliminate() const;",
  "  gtsam::VectorValues* optimize() const;",
  "  gtsam::GaussianFactor* marginalFactor(int j) const;",
  "  Matrix marginalCovariance(int j) const;",
  "\x7d;",
  "",
  "class KalmanFilter \x7b",
  "\tKalmanFilter(size_t n);",
  "\tgtsam::GaussianDensity* init(Vector x0, const gtsam::SharedDiagonal& P0);",
  "\tgtsam::GaussianDensity* init(Vector x0, Matrix P0);",
  "\tvoid print(string s) const;",
  "\tstatic int step(gtsam::GaussianDensity* p);",
  "\tgtsam::GaussianDensity* predict(gtsam::GaussianDensity* p, Matrix F, Matrix B, Vector u,",
  "\t\t\tconst gtsam::SharedDiagonal& modelQ);",
  "\tgtsam::GaussianDensity* predictQ(gtsam::GaussianDensity* p, Matrix F, Matrix B, Vector u,",
  "\t\t\tMatrix Q);",
  "\tgtsam::GaussianDensity* predict2(gtsam::GaussianDensity* p, Matrix A0, Matrix A1, Vector b,",
  "\t\t\tconst gtsam::SharedDiagonal& model);",
  "\tgtsam::GaussianDensity* update(gtsam::GaussianDensity* p, Matrix H, Vector z,",
  "\t\t\tconst gtsam::SharedDiagonal& model);",
  "\tgtsam::GaussianDensity* updateQ(gtsam::GaussianDensity* p, Matrix H, Vector z,",
  "\t    Matrix Q);",
  "\x7d;",
  "",
  "//*************************************************************************",
  "// nonlinear",
  "//*************************************************************************",
  "",
  "class Ordering \x7b",
  "\tOrdering();",
  "\tvoid print(string s) const;",
  "\tbool equals(const gtsam::Ordering& ord, double tol) const;",
  "\tvoid push_back(string key);",
  "\x7d;",
  "",
  "class NonlinearOptimizationParameters \x7b",
  "\tNonlinearOptimizationParameters(double absDecrease, double relDecrease,",
  "\t\t\tdouble sumError, int iIters, double lambda, double lambdaFactor);",
  "\tvoid print(string s) const;",
  "\tstatic gtsam::NonlinearOptimizationParameters* newDrecreaseThresholds(double absDecrease,",
  "\t\t\tdouble relDecrease);",
  "\x7d;",
  "",
  "",
  "\x7d///\\namespace gtsam",
  "",
  "//*************************************************************************",
  "// planarSLAM",
  "//*************************************************************************",
  "",
  "#include <gtsam/slam/planarSLAM.h>",
  "namespace planarSLAM \x7b",
  "",
  "class Values \x7b",
  "\tValues();",
  "\tvoid print(string s) const;",
  "\tgtsam::Pose2 pose(int key) const;",
  "\tgtsam::Point2 point(int key) const;",
  "\tvoid insertPose(int key, const gtsam::Pose2& pose);",
  "\tvoid insertPoint(int key, const gtsam::Point2& point);",
  "\x7d;",
  "",
  "class Graph \x7b",
  "\tGraph();",
  "",
  "\tvoid print(string s) const;",
  "",
  "\tdouble error(const planarSLAM::Values& values) const;",
  "\tgtsam::Ordering* orderingCOLAMD(const planarSLAM::Values& values) const;",
  "\tgtsam::GaussianFactorGraph* linearize(const planarSLAM::Values& values,",
  "\t\t\tconst gtsam::Ordering& ordering) const;",
  "",
  "\tvoid addPrior(int key, const gtsam::Pose2& pose, const gtsam::SharedNoiseModel& noiseModel);",
  "\tvoid addPoseConstraint(int key, const gtsam::Pose2& pose);",
  "\tvoid addOdometry(int key1, int key2, const gtsam::Pose2& odometry, const gtsam::SharedNoiseModel& noiseModel);",
  "\tvoid addBearing(int poseKey, int pointKey, const gtsam::Rot2& bearing, const gtsam::SharedNoiseModel& noiseModel);",
  "\tvoid addRange(int poseKey, int pointKey, double range, const gtsam::SharedNoiseModel& noiseModel);",
  "\tvoid addBearingRange(int poseKey, int pointKey, const gtsam::Rot2& bearing, double range,",
  "\t\t\tconst gtsam::SharedNoiseModel& noiseModel);",
  "\tplanarSLAM::Values optimize(const planarSLAM::Values& initialEstimate);",
  "\x7d;",
  "",
  "class Odometry \x7b",
  "\tOdometry(int key1, int key2, const gtsam::Pose2& measured,",
  "\t\t\tconst gtsam::SharedNoiseModel& model);",
  "\tvoid print(string s) const;",
  "\tgtsam::GaussianFactor* linearize(const planarSLAM::Values& center, const gtsam::Ordering& ordering) const;",
  "\x7d;",
  "",
  "class Optimizer \x7b",
  "\tOptimizer(planarSLAM::Graph* graph, planarSLAM::Values* values,",
  "\t    gtsam::Ordering* ordering, gtsam::NonlinearOptimizationParameters* parameters);",
  "\tvoid print(string s) const;",
  "\x7d;",
  "",
  "\x7d///\\namespace planarSLAM",
  "",
  "//*************************************************************************",
  "// gtsam::Pose2SLAM",
  "//*************************************************************************",
  "",
  "#include <gtsam/slam/pose2SLAM.h>",
  "namespace pose2SLAM \x7b",
  "",
  "class Values \x7b",
  "  Values();",
  "  void print(string s) const;",
  "  void insertPose(int key, const gtsam::Pose2& pose);",
  "  gtsam::Pose2 pose(int i);",
  "\x7d;",
  "",
  "class Graph \x7b",
  "  Graph();",
  "",
  "  void print(string s) const;",
  "",
  "  double error(const pose2SLAM::Values& values) const;",
  "  gtsam::Ordering* orderingCOLAMD(const pose2SLAM::Values& values) const;",
  "  gtsam::GaussianFactorGraph* linearize(const pose2SLAM::Values& values,",
  "      const gtsam::Ordering& ordering) const;",
  "",
  "  void addPrior(int key, const gtsam::Pose2& pose, const gtsam::SharedNoiseModel& noiseModel);",
  "  void addPoseConstraint(int key, const gtsam::Pose2& pose);",
  "  void addOdometry(int key1, int key2, const gtsam::Pose2& odometry, const gtsam::SharedNoiseModel& noiseModel);",
  "  pose2SLAM::Values optimize(const pose2SLAM::Values& initialEstimate);",
  "\x7d;",
  "",
  "class Optimizer \x7b",
  "\tOptimizer(pose2SLAM::Graph* graph, pose2SLAM::Values* values,",
  "\t    gtsam::Ordering* ordering, gtsam::NonlinearOptimizationParameters* parameters);",
  "\tvoid print(string s) const;",
  "\x7d;",
  "",
  "\x7d///\\namespace pose2SLAM",
  "",
  "//*************************************************************************",
  "// Simulated2D",
  "//*************************************************************************",
  "",
  "#include <gtsam/slam/simulated2D.h>",
  "namespace simulated2D \x7b",
  "",
  "class Values \x7b",
  "\tValues();",
  "\tvoid insertPose(int i, const gtsam::Point2& p);",
  "\tvoid insertPoint(int j, const gtsam::Point2& p);",
  "\tint nrPoses() const;",
  "\tint nrPoints() const;",
  "\tgtsam::Point2 pose(int i);",
  "\tgtsam::Point2 point(int j);",
  "\x7d;",
  "",
  "class Graph \x7b",
  "\tGraph();",
  "\x7d;",
  "",
  "// TODO: add factors, etc.",
  "",
  "\x7d///\\namespace simulated2D",
  "",
  "// Simulated2DOriented Example Domain",
  "#include <gtsam/slam/simulated2DOriented.h>",
  "namespace simulated2DOriented \x7b",
  "",
  "class Values \x7b",
  "\tValues();",
  "\tvoid insertPose(int i, const gtsam::Pose2& p);",
  "\tvoid insertPoint(int j, const gtsam::Point2& p);",
  "\tint nrPoses() const;",
  "\tint nrPoints() const;",
  "\tgtsam::Pose2 pose(int i);",
  "\tgtsam::Point2 point(int j);",
  "\x7d;",
  "",
  "class Graph \x7b",
  "\tGraph();",
  "\x7d;",
  "",
  "// TODO: add factors, etc.",
  "",
  "\x7d///\\namespace simulated2DOriented",
  "",
  "",
  "//// These are considered to be broken and will be added back as they start working",
  "//// It\x27s assumed that there have been interface changes that might break this",
  "//",
  "//class Ordering\x7b",
  "//\tOrdering(string key);",
  "//  void print(string s) const;",
  "//  bool equals(const Ordering& ord, double tol) const;",
  "//\tOrdering subtract(const Ordering& keys) const;",
  "//\tvoid unique ();",
  "//\tvoid reverse ();",
  "//  void push_back(string s);",
  "//\x7d;",
  "//",
  "//class GaussianFactorSet \x7b",
  "//  GaussianFactorSet();",
  "//  void push_back(GaussianFactor* factor);",
  "//\x7d;",
  "//",
  "//class Simulated2DPosePrior \x7b",
  "//\tSimulated2DPosePrior(Point2& mu, const SharedDiagonal& model, int i);",
  "//  void print(string s) const;",
  "//  double error(const Simulated2DValues& c) const;",
  "//\x7d;",
  "//",
  "//class Simulated2DOrientedPosePrior \x7b",
  "//\tSimulated2DOrientedPosePrior(Pose2& mu, const SharedDiagonal& model, int i);",
  "//  void print(string s) const;",
  "//  double error(const Simulated2DOrientedValues& c) const;",
  "//\x7d;",
  "//",
  "//class Simulated2DPointPrior \x7b",
  "//\tSimulated2DPointPrior(Point2& mu, const SharedDiagonal& model, int i);",
  "//  void print(string s) const;",
  "//  double error(const Simulated2DValues& c) const;",
  "//\x7d;",
  "//",
  "//class Simulated2DOdometry \x7b",
  "//  Simulated2DOdometry(Point2& mu, const SharedDiagonal& model, int i1, int i2);",
  "//  void print(string s) const;",
  "//  double error(const Simulated2DValues& c) const;",
  "//\x7d;",
  "//",
  "//class Simulated2DOrientedOdometry \x7b",
  "//\tSimulated2DOrientedOdometry(Pose2& mu, const SharedDiagonal& model, int i1, int i2);",
  "//  void print(string s) const;",
  "//  double error(const Simulated2DOrientedValues& c) const;",
  "//\x7d;",
  "//",
  "//class Simulated2DMeasurement \x7b",
  "//  Simulated2DMeasurement(Point2& mu, const SharedDiagonal& model, int i, int j);",
  "//  void print(string s) const;",
  "//  double error(const Simulated2DValues& c) const;",
  "//\x7d;",
  "//",
  "//class GaussianFactor \x7b",
  "//\tGaussianFactor(string key1,",
  "//\t\t\tMatrix A1,",
  "//\t\t\tVector b_in,",
  "//\t\t\tconst SharedDiagonal& model);",
  "//\tGaussianFactor(string key1,",
  "//\t\t\tMatrix A1,",
  "//\t\t\tstring key2,",
  "//\t\t\tMatrix A2,",
  "//\t\t\tVector b_in,",
  "//\t\t\tconst SharedDiagonal& model);",
  "//\tGaussianFactor(string key1,",
  "//\t\t\tMatrix A1,",
  "//\t\t\tstring key2,",
  "//\t\t\tMatrix A2,",
  "//\t\t\tstring key3,",
  "//\t\t\tMatrix A3,",
  "//\t\t\tVector b_in,",
  "//\t\t\tconst SharedDiagonal& model);",
  "//\tbool involves(string key) const;",
  "//\tMatrix getA(string key) const;",
  "//\tpair<Matrix,Vector> matrix(const Ordering& ordering) const;",
  "//\tpair<GaussianConditional*,GaussianFactor*> eliminate(string key) const;",
  "//\x7d;",
  "//",
  "//class GaussianFactorGraph \x7b",
  "//\tGaussianConditional* eliminateOne(string key);",
  "//\tGaussianBayesNet* eliminate_(const Ordering& ordering);",
  "//\tVectorValues* optimize_(const Ordering& ordering);",
  "//\tpair<Matrix,Vector> matrix(const Ordering& ordering) const;",
  "//\tVectorValues* steepestDescent_(const VectorValues& x0) const;",
  "//\tVectorValues* conjugateGradientDescent_(const VectorValues& x0) const;",
  "//\x7d;",
  "//",
  "//class gtsam::Pose2Values\x7b",
  "//\tPose2Values();",
  "//\tPose2 get(string key) const;",
  "//\tvoid insert(string name, const gtsam::Pose2& val);",
  "//\tvoid print(string s) const;",
  "//\tvoid clear();",
  "//\tint size();",
  "//\x7d;",
  "//",
  "//class gtsam::Pose2Factor \x7b",
  "//\tPose2Factor(string key1, string key2,",
  "//\t\t\tconst gtsam::Pose2& measured, Matrix measurement_covariance);",
  "//\tvoid print(string name) const;",
  "//\tdouble error(const gtsam::Pose2Values& c) const;",
  "//\tsize_t size() const;",
  "//\tGaussianFactor* linearize(const gtsam::Pose2Values& config) const;",
  "//\x7d;",
  "//",
  "//class gtsam::pose2SLAM::Graph\x7b",
  "//\tpose2SLAM::Graph();",
  "//\tvoid print(string s) const;",
  "//\tGaussianFactorGraph* linearize_(const gtsam::Pose2Values& config) const;",
  "//\tvoid push_back(Pose2Factor* factor);",
  "//\x7d;",
  "//",
  "//class SymbolicFactor\x7b",
  "//\tSymbolicFactor(const Ordering& keys);",
  "//\tvoid print(string s) const;",
  "//\x7d;",
  "//",
  "//class Simulated2DPosePrior \x7b",
  "//\tGaussianFactor* linearize(const Simulated2DValues& config) const;",
  "//\x7d;",
  "//",
  "//class Simulated2DOrientedPosePrior \x7b",
  "//\tGaussianFactor* linearize(const Simulated2DOrientedValues& config) const;",
  "//\x7d;",
  "//",
  "//class Simulated2DPointPrior \x7b",
  "//\tGaussianFactor* linearize(const Simulated2DValues& config) const;",
  "//\x7d;",
  "//",
  "//class Simulated2DOdometry \x7b",
  "//\tGaussianFactor* linearize(const Simulated2DValues& config) const;",
  "//\x7d;",
  "//",
  "//class Simulated2DOrientedOdometry \x7b",
  "//\tGaussianFactor* linearize(const Simulated2DOrientedValues& config) const;",
  "//\x7d;",
  "//",
  "//class Simulated2DMeasurement \x7b",
  "//\tGaussianFactor* linearize(const Simulated2DValues& config) const;",
  "//\x7d;",
  "//",
  "//class gtsam::Pose2SLAMOptimizer \x7b",
  "//\tPose2SLAMOptimizer(string dataset_name);",
  "//\tvoid print(string s) const;",
  "//\tvoid update(Vector x) const;",
  "//\tVector optimize() const;",
  "//\tdouble error() const;",
  "//\tMatrix a1() const;",
  "//\tMatrix a2() const;",
  "//\tVector b1() const;",
  "//\tVector b2() const;",
  "//\x7d;"
  ]

/-- The raw lines of `gtsam.h` as character lists (lexer input). -/
def gtsamLinesC : List (List Char) := gtsamLines.map (fun s => s.data)

/-! ## Derived views of the document -/

/-- All parameter types occurring in constructors and methods of a document. -/
def Document.allParamTypes (d : Document) : List TypeExpr :=
  d.namespaces.flatMap fun ns =>
    ns.classes.flatMap fun c =>
      c.ctors.flatMap (·.args) ++ c.methods.flatMap (·.args)

/-- All return types occurring in methods of a document. -/
def Document.allReturnTypes (d : Document) : List TypeExpr :=
  d.namespaces.flatMap fun ns => ns.classes.flatMap fun c => c.methods.map (·.ret)

/-- All types (parameters and returns) occurring in a document. -/
def Document.allTypes (d : Document) : List TypeExpr :=
  d.allParamTypes ++ d.allReturnTypes

/-- Whether a base type is a namespace-qualified class reference. -/
def isQualifiedClassRef : BaseType → Bool
  | .classRef (_ :: _) _ => true
  | _ => false

/-- The classes of the document's `gtsam` namespace carrying a given name. -/
def gtsamClassesNamed (nsName cName : String) : List ClassDecl :=
  (gtsamDoc.namespaces.filter (·.name = nsName)).flatMap fun ns =>
    ns.classes.filter (·.name = cName)

/-- The §8 round-trip document: one namespace `ns` with one class `Foo`, a
zero-argument constructor and one const method `double bar() const`. -/
def demoDoc : Document :=
  ⟨[⟨"ns",
      [⟨"Foo", [⟨[]⟩],
        [⟨"bar", ⟨false, .prim "double", false, false⟩, [], true, false⟩], none⟩],
      none, "\x7d///\\namespace ns"⟩], []⟩

/-! ## Lexer lemmas -/

/-- A comment-free line: no `/` immediately followed by `/` or `*`. -/
def cleanB : List Char → Bool
  | [] => true
  | c :: r => !(c = '/' && (r.headD ' ' = '/' || r.headD ' ' = '*')) && cleanB r

theorem cleanB_cons_of_ne {c : Char} (r : List Char) (h : c ≠ '/') :
    cleanB (c :: r) = cleanB r := by
  simp [cleanB, h]

theorem cleanB_cons_iff {c : Char} {r : List Char} :
    cleanB (c :: r) = true ↔
      ¬(c = '/' ∧ (r.headD ' ' = '/' ∨ r.headD ' ' = '*')) ∧ cleanB r = true := by
  simp only [cleanB, Bool.and_eq_true, Bool.not_eq_true', Bool.and_eq_false_iff,
    Bool.or_eq_false_iff, decide_eq_false_iff_not]
  constructor
  · rintro ⟨h1, h2⟩
    refine ⟨?_, h2⟩
    rintro ⟨hc, hh⟩
    rcases h1 with h | ⟨h3, h4⟩
    · exact h hc
    · rcases hh with h | h
      · exact h3 h
      · exact h4 h
  · rintro ⟨h1, h2⟩
    refine ⟨?_, h2⟩
    by_cases hc : c = '/'
    · right
      constructor
      · intro h
        exact h1 ⟨hc, Or.inl h⟩
      · intro h
        exact h1 ⟨hc, Or.inr h⟩
    · exact Or.inl hc

theorem cleanB_tail {c : Char} {r : List Char} (h : cleanB (c :: r) = true) :
    cleanB r = true := (cleanB_cons_iff.mp h).2

/-- Comment stripping always produces a comment-free line. -/
theorem lineGo_clean (l : List Char) : ∀ st, cleanB (lineGo st l).1 = true := by
  induction l with
  | nil => intro st; cases st <;> simp [lineGo, cleanB]
  | cons c r ih =>
    intro st
    cases st with
    | norm =>
      by_cases hc : c = '/'
      · simpa [lineGo, hc] using ih .slash
      · rw [lineGo, if_neg hc, keep, cleanB_cons_of_ne _ hc]
        exact ih .norm
    | slash =>
      by_cases hc : c = '/'
      · simp [lineGo, hc, cleanB]
      · by_cases hs : c = '*'
        · simpa [lineGo, hc, hs] using ih .blk
        · rw [lineGo, if_neg hc, if_neg hs, keep, keep]
          have h1 : cleanB (c :: (lineGo LSt.norm r).1) = cleanB (lineGo LSt.norm r).1 :=
            cleanB_cons_of_ne _ hc
          simp only [cleanB, List.headD_cons, h1]
          simp [hc, hs, ih .norm]
    | blk =>
      by_cases hc : c = '*'
      · simpa [lineGo, hc] using ih .blkStar
      · simpa [lineGo, hc] using ih .blk
    | blkStar =>
      by_cases hc : c = '/'
      · have : (' ' : Char) ≠ '/' := by decide
        rw [lineGo, if_pos hc, keep, cleanB_cons_of_ne _ this]
        exact ih .norm
      · by_cases hs : c = '*'
        · simpa [lineGo, hc, hs] using ih .blkStar
        · simpa [lineGo, hc, hs] using ih .blk

/-- On a comment-free line, comment stripping is the identity and leaves no
block comment open. -/
theorem lineGo_id_of_clean : ∀ n l, l.length ≤ n → cleanB l = true →
    lineGo .norm l = (l, false) := by
  intro n
  induction n with
  | zero =>
    intro l hl _
    have : l = [] := List.length_eq_zero.mp (Nat.le_zero.mp hl)
    subst this
    simp [lineGo]
  | succ n ih =>
    intro l hl hc
    match l with
    | [] => simp [lineGo]
    | c :: r =>
      by_cases h : c = '/'
      · subst h
        match r with
        | [] => simp [lineGo]
        | d :: r' =>
          have hd2 : ¬(d = '/' ∨ d = '*') := by
            rcases (cleanB_cons_iff.mp hc).1 with h
            intro hcontra
            exact h ⟨rfl, by simpa using hcontra⟩
          have hd : d ≠ '/' := fun h => hd2 (Or.inl h)
          have hs : d ≠ '*' := fun h => hd2 (Or.inr h)
          have hcr' : cleanB r' = true := cleanB_tail (cleanB_cons_iff.mp hc).2
          have hlen : r'.length ≤ n := by
            simp only [List.length_cons] at hl
            omega
          rw [lineGo, if_pos rfl, lineGo, if_neg hd, if_neg hs, keep, keep,
            ih r' hlen hcr']
      · have hcr : cleanB r = true := cleanB_tail hc
        have hlen : r.length ≤ n := by
          simp only [List.length_cons] at hl
          omega
        rw [lineGo, if_neg h, keep, ih r hlen hcr]

/-- Every line produced by comment stripping is a kept marker line or
comment-free. -/
theorem stripLines_clean : ∀ ls b ts, stripLines b ls = some ts →
    ∀ t ∈ ts, isMarkerLine t = true ∨ cleanB t = true := by
  intro ls
  induction ls with
  | nil =>
    intro b ts h t ht
    cases b with
    | true => simp [stripLines] at h
    | false =>
      simp only [stripLines, Option.some_inj] at h
      subst h
      simp at ht
  | cons l ls ih =>
    intro b ts h t ht
    cases b with
    | true =>
      simp only [stripLines, if_pos, Option.map_eq_some'] at h
      obtain ⟨ts', h1, h2⟩ := h
      subst h2
      rcases List.mem_cons.mp ht with h | h
      · subst h
        exact Or.inr (lineGo_clean l .blk)
      · exact ih _ _ h1 t h
    | false =>
      by_cases hm : isMarkerLine l = true
      · simp only [stripLines, if_neg Bool.false_ne_true, hm, if_pos, Option.map_eq_some'] at h
        obtain ⟨ts', h1, h2⟩ := h
        subst h2
        rcases List.mem_cons.mp ht with h | h
        · subst h
          exact Or.inl hm
        · exact ih _ _ h1 t h
      · simp only [stripLines, if_neg Bool.false_ne_true, hm, if_neg, Option.map_eq_some'] at h
        obtain ⟨ts', h1, h2⟩ := h
        subst h2
        rcases List.mem_cons.mp ht with h | h
        · subst h
          exact Or.inr (lineGo_clean l .norm)
        · exact ih _ _ h1 t h

/-- Comment stripping is the identity on a document whose lines are all kept
marker lines or comment-free. -/
theorem stripLines_id : ∀ ts, (∀ t ∈ ts, isMarkerLine t = true ∨ cleanB t = true) →
    stripLines false ts = some ts := by
  intro ts
  induction ts with
  | nil => intro _; rfl
  | cons t ts ih =>
    intro h
    have htail : stripLines false ts = some ts :=
      ih fun x hx => h x (List.mem_cons_of_mem _ hx)
    by_cases hm : isMarkerLine t = true
    · simp [stripLines, hm, htail]
    · rcases h t (List.mem_cons_self _ _) with h' | h'
      · exact absurd h' hm
      · have := lineGo_id_of_clean t.length t le_rfl h'
        simp [stripLines, hm, this, htail]

/-- The lexer fails exactly when a block comment is still open at end of
input. -/
theorem stripLines_none_iff : ∀ ls b, stripLines b ls = none ↔ endState b ls = true := by
  intro ls
  induction ls with
  | nil => intro b; cases b <;> simp [stripLines, endState]
  | cons l ls ih =>
    intro b
    cases b with
    | true => simp [stripLines, endState, Option.map_eq_none', ih]
    | false =>
      by_cases hm : isMarkerLine l = true <;>
        simp [stripLines, endState, hm, Option.map_eq_none', ih]

/-- Filtering distributes over `flatMap`. -/
theorem filter_flatMap_comm {α β : Type} (l : List α) (f : α → List β) (p : β → Bool) :
    (l.flatMap f).filter p = l.flatMap fun a => (f a).filter p := by
  induction l with
  | nil => rfl
  | cons a l ih => simp [List.flatMap_cons, List.filter_append, ih]

/-! ## The claims -/

/-- C1: the claim says that within every class of the document no two methods
share a name.  The document itself violates this — `GaussianFactorGraph`
declares six methods named `add` and `KalmanFilter` declares two methods
named `init` — although the document's own header (lines 17-18) states
"There can only be one method with a given name".  This theorem evaluates
the document at the failing classes. -/
theorem C1_document_has_duplicate_method_names :
    (∃ ns ∈ gtsamDoc.namespaces, ∃ c ∈ ns.classes, ¬(c.methods.map (·.name)).Nodup) ∧
    (gtsamClassesNamed "gtsam" "GaussianFactorGraph").map
        (fun c => (c.methods.filter (·.name = "add")).length) = [6] ∧
    (gtsamClassesNamed "gtsam" "KalmanFilter").map
        (fun c => (c.methods.filter (·.name = "init")).length) = [2] ∧
    "uniqueness: method gtsam::GaussianFactorGraph::add" ∈ uniqueViolations gtsamDoc ∧
    "uniqueness: method gtsam::KalmanFilter::init" ∈ uniqueViolations gtsamDoc := by
  refine ⟨⟨gtsamDoc.namespaces.headD ⟨"", [], none, ""⟩, by decide, ?_⟩, by decide,
    by decide, by decide, by decide⟩
  decide

/-- C2: resolving the document yields zero dependency errors; the resolver
reports exactly one error, carrying the reference's location, per
class-reference occurrence that matches neither a declared class nor a
forward declaration; and resolvability depends only on the registry contents
(hence is independent of declaration order). -/
theorem C2_dependency_resolution :
    resolveErrors gtsamDoc = [] ∧
    (∀ d : Document, resolveErrors d =
        (allRefOccs d).filter fun o => !resolvable d o.path o.cname) ∧
    (∀ d₁ d₂ : Document, d₁.namespaces.Perm d₂.namespaces →
        d₁.forwardDecls = d₂.forwardDecls →
        ∀ p n, resolvable d₁ p n = resolvable d₂ p n) := by
  refine ⟨by decide, ?_, ?_⟩
  · intro d
    simp only [resolveErrors, allRefOccs, filter_flatMap_comm]
  · intro d₁ d₂ hperm hfd p n
    have hmem : ((p, n) ∈ d₁.declaredQualified) ↔ ((p, n) ∈ d₂.declaredQualified) := by
      simp only [Document.declaredQualified, List.mem_flatMap]
      constructor <;> rintro ⟨ns, hns, hq⟩
      · exact ⟨ns, hperm.mem_iff.mp hns, hq⟩
      · exact ⟨ns, hperm.mem_iff.mpr hns, hq⟩
    simp only [resolvable, hfd, decide_eq_decide.mpr hmem]

/-- Witness for C2: instantiating order-independence at the document and the
document with its namespaces reversed. -/
theorem C2_dependency_resolution_witness :
    resolvable gtsamDoc ["gtsam"] "Point2" =
      resolvable ⟨gtsamDoc.namespaces.reverse, []⟩ ["gtsam"] "Point2" :=
  C2_dependency_resolution.2.2 gtsamDoc ⟨gtsamDoc.namespaces.reverse, []⟩
    (List.reverse_perm gtsamDoc.namespaces).symm rfl ["gtsam"] "Point2"

/-- C3: a namespace-closing line parses successfully exactly when it carries
the mandatory marker token (its absence is a hard error); when the marker is
present, a name mismatching or omitting the opening namespace's name yields
only an advisory style warning; and all five namespace blocks of the document
carry a close marker naming their opening namespace. -/
theorem C3_namespace_close_markers :
    (∀ nm l, (checkClose nm l).isOk = true ↔ isMarkerLine l = true) ∧
    (∀ nm l w, checkClose nm l = .ok w → (markerName l = some nm ↔ w = [])) ∧
    gtsamDoc.namespaces.map (·.name) =
      ["gtsam", "planarSLAM", "pose2SLAM", "simulated2D", "simulated2DOriented"] ∧
    gtsamDoc.namespaces.map (fun ns => checkClose ns.name ns.closeMarker.data) =
      [.ok [], .ok [], .ok [], .ok [], .ok []] := by
  refine ⟨?_, ?_, by decide, by decide⟩
  · intro nm l
    by_cases hm : isMarkerLine l = true
    · simp only [checkClose, hm, if_pos]
      split <;> simp [Except.isOk, Except.toBool, hm]
    · simp [checkClose, hm, Except.isOk, Except.toBool]
  · intro nm l w h
    by_cases hm : isMarkerLine l = true
    · simp only [checkClose, hm, if_pos] at h
      by_cases hn : markerName l = some nm
      · simp only [hn, if_pos, Except.ok.injEq] at h
        simp [hn, h.symm]
      · simp [hn] at h
        simp [hn, h.symm]
    · simp [checkClose, hm] at h

/-- Witness for C3: the document's `gtsam` close-marker line names `gtsam`. -/
theorem C3_namespace_close_markers_witness :
    markerName ("\x7d///\\namespace gtsam").data = some "gtsam" :=
  (C3_namespace_close_markers.2.1 "gtsam" ("\x7d///\\namespace gtsam").data []
    (by decide)).mpr rfl

/-- C4: every declaration of the document satisfies the naming invariants —
namespace names lowercase-initial, class names uppercase-initial, instance
method names lowercase-initial, uppercase-initial methods static — so the
validator reports zero naming violations. -/
theorem C4_naming_invariants_hold :
    namingViolations gtsamDoc = [] ∧
    gtsamDoc.namespaces.all (fun ns => lowerInit ns.name) = true ∧
    (gtsamDoc.namespaces.flatMap (·.classes)).all (fun c => upperInit c.name) = true ∧
    ((gtsamDoc.namespaces.flatMap (·.classes)).flatMap (·.methods)).all
        (fun m => m.isStatic || lowerInit m.name) = true ∧
    ((gtsamDoc.namespaces.flatMap (·.classes)).flatMap (·.methods)).all
        (fun m => !upperInit m.name || m.isStatic) = true := by
  exact ⟨by decide, by decide, by decide, by decide, by decide⟩

/-- The C5 example line with comments. -/
def exCommented : String := "/* a */ class /* b */ Foo \x7b \x7d;"

/-- The C5 example line without comments. -/
def exPlain : String := "class Foo \x7b \x7d;"

set_option maxRecDepth 1000000 in
/-- C5: the token sequence of a document is exactly that of the document with
all comment spans removed (comment stripping happens before tokenization, is
content-preserving outside comment spans, and is idempotent); the concrete
example of the spec holds; and the header block comment (lines 1-46) and the
commented-out declarations (lines 536 to the end) of the document contribute
no tokens at all. -/
theorem C5_comment_stripping :
    (∀ ls ts, stripLines false ls = some ts → lexTokens ls = .ok (tokensOf ts)) ∧
    (∀ ls ts, stripLines false ls = some ts → stripLines false ts = some ts) ∧
    lexTokens [exCommented.data] = lexTokens [exPlain.data] ∧
    lexTokens (gtsamLinesC.take 46) = .ok [] ∧
    lexTokens (gtsamLinesC.drop 535) = .ok [] := by
  refine ⟨?_, ?_, by decide, by decide, by decide⟩
  · intro ls ts h
    simp [lexTokens, h]
  · intro ls ts h
    exact stripLines_id ts (stripLines_clean ls false ts h)

set_option maxRecDepth 1000000 in
/-- Witness for C5: idempotence instantiated at the example line — stripping
its stripped form changes nothing. -/
theorem C5_comment_stripping_witness :
    stripLines false [("  class   Foo \x7b \x7d;").data] =
      some [("  class   Foo \x7b \x7d;").data] :=
  C5_comment_stripping.2.1 [exCommented.data] [("  class   Foo \x7b \x7d;").data]
    (by decide)

set_option maxRecDepth 1000000 in
/-- C7: the lexer fails exactly when a block comment is left open at end of
input, and its only error value is `unterminatedBlockComment`; on this
document every block comment is terminated and lexing succeeds. -/
theorem C7_lexer_failure_mode :
    (∀ b ls, stripLines b ls = none ↔ endState b ls = true) ∧
    (∀ ls e, lexTokens ls = .error e → e = .unterminatedBlockComment) ∧
    endState false gtsamLinesC = false ∧
    (lexTokens gtsamLinesC).isOk = true := by
  refine ⟨fun b ls => stripLines_none_iff ls b, ?_, by decide, by decide⟩
  intro ls e _
  cases e
  rfl

/-- Witness for C7: the failure characterisation instantiated at a one-line
document opening a block comment and never closing it. -/
theorem C7_lexer_failure_mode_witness :
    stripLines false [['/', '*', 'x']] = none :=
  (C7_lexer_failure_mode.1 false [['/', '*', 'x']]).mpr (by decide)

/-- C6: an include-override line is attached to exactly the declaration
immediately following it and never to a later sibling; in the document the
four SLAM namespaces each carry exactly their preceding override and the
`gtsam` namespace none; and a class with no override (own or namespace-level)
receives the include path derived from its namespace path plus class name. -/
theorem C6_include_overrides :
    (∀ pending p n cs mk rest,
        attachIncludes pending (.includeLine p :: .nsBlock n cs mk :: rest) =
          ⟨n, cs, some p, mk⟩ :: attachIncludes none rest) ∧
    (∀ pending p n₁ cs₁ mk₁ n₂ cs₂ mk₂ rest,
        attachIncludes pending
            (.includeLine p :: .nsBlock n₁ cs₁ mk₁ :: .nsBlock n₂ cs₂ mk₂ :: rest) =
          ⟨n₁, cs₁, some p, mk₁⟩ :: ⟨n₂, cs₂, none, mk₂⟩ :: attachIncludes none rest) ∧
    gtsamDoc.namespaces.map (fun ns => (ns.name, ns.includeOverride)) =
      [("gtsam", none), ("planarSLAM", some "<gtsam/slam/planarSLAM.h>"),
        ("pose2SLAM", some "<gtsam/slam/pose2SLAM.h>"),
        ("simulated2D", some "<gtsam/slam/simulated2D.h>"),
        ("simulated2DOriented", some "<gtsam/slam/simulated2DOriented.h>")] ∧
    (∀ ns c, c.includeOverride = none → ns.includeOverride = none →
        includeFor ns c = defaultInclude [ns.name] c.name) := by
  refine ⟨fun _ _ _ _ _ _ => rfl, fun _ _ _ _ _ _ _ _ _ => rfl, by decide, ?_⟩
  intro ns c h1 h2
  simp [includeFor, h1, h2]

/-- Witness for C6: the default derivation instantiated at a concrete
override-free namespace and class. -/
theorem C6_include_overrides_witness :
    includeFor ⟨"ns", [], none, ""⟩ ⟨"Foo", [], [], none⟩ =
      defaultInclude ["ns"] "Foo" :=
  C6_include_overrides.2.2.2 ⟨"ns", [], none, ""⟩ ⟨"Foo", [], [], none⟩ rfl rfl

/-- C8: the modelled pipeline is a pure function, so byte-identical input
yields identical output; and a document with empty diagnostics is emitted
with an empty diagnostics list (no stage adds any). -/
theorem C8_pipeline_deterministic :
    (∀ d₁ d₂ : Document, d₁ = d₂ → runPipeline d₁ = runPipeline d₂) ∧
    (∀ d : Document, diagnostics d = [] → runPipeline d = (emitDoc d, [])) := by
  refine ⟨fun d₁ d₂ h => by rw [h], ?_⟩
  intro d h
  simp [runPipeline, h]

/-- Witness for C8: the §8 round-trip document is valid; the pipeline run
twice on it gives the same emission and an empty diagnostics list. -/
theorem C8_pipeline_deterministic_witness :
    runPipeline demoDoc = runPipeline demoDoc ∧
    runPipeline demoDoc = (emitDoc demoDoc, []) :=
  ⟨C8_pipeline_deterministic.1 demoDoc demoDoc rfl,
    C8_pipeline_deterministic.2 demoDoc (by decide)⟩

set_option maxRecDepth 1000000 in
/-- C9: every reference-typed parameter of the document is const-qualified —
no non-const reference occurs in any signature — and const references do
occur. -/
theorem C9_references_are_const :
    (gtsamDoc.allTypes.all fun t => !t.isRef || t.isConst) = true ∧
    (gtsamDoc.allParamTypes.any fun t => t.isRef && t.isConst) = true := by
  exact ⟨by decide, by decide⟩

set_option maxRecDepth 1000000 in
/-- C10: every pointer-marked type of the document is a namespace-qualified
class reference (so `Matrix`, `Vector` and primitives never carry a pointer
marker), and class pointers occur both as return types and as parameter
types. -/
theorem C10_pointers_are_qualified_class_refs :
    (gtsamDoc.allTypes.all fun t => !t.isPtr || isQualifiedClassRef t.base) = true ∧
    (gtsamDoc.allReturnTypes.any (·.isPtr)) = true ∧
    (gtsamDoc.allParamTypes.any (·.isPtr)) = true := by
  exact ⟨by decide, by decide, by decide⟩
